import Mathlib

/-!
Verification development for the aws-ai-class repository: a shallow
embedding of the MCP tool handlers (script generators) and of the
standalone provisioning scripts' control flow, with theorems settling the
frozen claims about them.

The embedding models Python values with the inductive `PyVal`, dictionaries
as association lists (insertion order preserved, as in Python 3.7+), and
fallible Python code with `Except String`.  Each MCP handler follows its
Python source line by line: parameter extraction first (`...Params`), then
the f-string template (`...Code`), then the returned
`{code, filename, instructions}` dictionary (`mkToolResult`).
-/

/-- A Python/JSON value as the handlers manipulate them: strings, ints,
booleans, `None`, lists, and dicts (association lists in insertion order).
Floats never flow into any computation of this repository (the one float
parameter, `relevance_score`, is never read), so no float constructor is
needed; a claim quantifying over such an argument quantifies over `PyVal`. -/
inductive PyVal where
  | str (s : String)
  | int (n : Int)
  | bool (b : Bool)
  | none
  | list (xs : List PyVal)
  | dict (kvs : List (String × PyVal))
deriving Repr

/-- Python `d[k]` / `d.get(k)` on an association-list dictionary: the value
bound to `k`, if any. -/
def pyGet (kvs : List (String × PyVal)) (k : String) : Option PyVal :=
  (kvs.find? (fun p => p.1 == k)).map (·.2)

/-- Python `d[k] = v`: replace the value in place if the key exists
(insertion order kept), append the binding otherwise. -/
def pySetItem (kvs : List (String × PyVal)) (k : String) (v : PyVal) :
    List (String × PyVal) :=
  match kvs with
  | [] => [(k, v)]
  | (k', v') :: rest =>
      if k' == k then (k', v) :: rest else (k', v') :: pySetItem rest k v

/-- Python `args[k]`: `KeyError` when the key is absent. -/
def pyIndex (kvs : List (String × PyVal)) (k : String) : Except String PyVal :=
  match pyGet kvs k with
  | some v => .ok v
  | Option.none => .error ("KeyError: " ++ k)

/-- Narrow a `PyVal` to a string.  The MCP tool layer (server.py) types the
string parameters as `str`, so handler embeddings extract them through this
(failing mirrors the `TypeError`/`AttributeError` dynamic failure that a
non-string would eventually hit in the template pipeline). -/
def asStr : PyVal → Except String String
  | .str s => .ok s
  | _ => .error "TypeError: expected str"

/-- Narrow a `PyVal` to an int (the tool layer types these as `int`). -/
def asInt : PyVal → Except String Int
  | .int n => .ok n
  | _ => .error "TypeError: expected int"

/-- Narrow a `PyVal` to a bool (the tool layer types these as `bool`). -/
def asBool : PyVal → Except String Bool
  | .bool b => .ok b
  | _ => .error "TypeError: expected bool"

/-- Narrow a `PyVal` to a list. -/
def asList : PyVal → Except String (List PyVal)
  | .list xs => .ok xs
  | _ => .error "TypeError: expected list"

/-- Narrow a `PyVal` to a dict. -/
def asDict : PyVal → Except String (List (String × PyVal))
  | .dict kvs => .ok kvs
  | _ => .error "TypeError: expected dict"

/-- Python `args["k"]` expected to be a string. -/
def argStr (args : List (String × PyVal)) (k : String) : Except String String :=
  pyIndex args k >>= asStr

/-- Python `args.get("k", default)` expected to be a string. -/
def argStrD (args : List (String × PyVal)) (k d : String) : Except String String :=
  match pyGet args k with
  | some v => asStr v
  | Option.none => .ok d

/-- Python `args.get("k", default)` expected to be an int. -/
def argIntD (args : List (String × PyVal)) (k : String) (d : Int) :
    Except String Int :=
  match pyGet args k with
  | some v => asInt v
  | Option.none => .ok d

/-- Python `args.get("k", default)` expected to be a bool. -/
def argBoolD (args : List (String × PyVal)) (k : String) (d : Bool) :
    Except String Bool :=
  match pyGet args k with
  | some v => asBool v
  | Option.none => .ok d

/-- Python `str.lower()` restricted to ASCII (every name the lookup table
compares against is ASCII; written with an explicit character map so that
concrete evaluation reduces in the kernel). -/
def pyCharLower (c : Char) : Char :=
  if 'A' ≤ c ∧ c ≤ 'Z' then Char.ofNat (c.toNat + 32) else c

/-- Python `s.lower()` over a string. -/
def pyLower (s : String) : String := String.mk (s.data.map pyCharLower)

/-- Python `str(b)` for a bool: `True` / `False` (f-string interpolation of
`auto_create_ecr` and `auto_update_on_conflict`). -/
def pyBoolStr (b : Bool) : String := if b then "True" else "False"

/-- Lowercase hex digit. -/
def hexDigit (n : Nat) : Char :=
  if n < 10 then Char.ofNat (48 + n) else Char.ofNat (87 + n)

/-- Four lowercase hex digits, as `json.dumps` writes `\uXXXX` escapes. -/
def hex4 (n : Nat) : String :=
  String.mk [hexDigit (n / 4096 % 16), hexDigit (n / 256 % 16),
             hexDigit (n / 16 % 16), hexDigit (n % 16)]

/-- One character of a JSON string literal as Python's `json.dumps` writes it
with the default `ensure_ascii=True`: named escapes for the usual controls,
`\uXXXX` for the other controls and all non-ASCII (surrogate pairs above
the BMP). -/
def pyJsonEscapeChar (c : Char) : String :=
  if c = '"' then "\\\""
  else if c = '\\' then "\\\\"
  else if c = '\n' then "\\n"
  else if c = '\r' then "\\r"
  else if c = '\t' then "\\t"
  else if c.toNat = 8 then "\\b"
  else if c.toNat = 12 then "\\f"
  else if c.toNat < 32 then "\\u" ++ hex4 c.toNat
  else if c.toNat < 127 then String.mk [c]
  else if c.toNat ≤ 65535 then "\\u" ++ hex4 c.toNat
  else
    let v := c.toNat - 65536
    "\\u" ++ hex4 (55296 + v / 1024) ++ "\\u" ++ hex4 (56320 + v % 1024)

/-- A JSON string literal as `json.dumps` renders it. -/
def pyJsonQuote (s : String) : String :=
  "\"" ++ String.join (s.data.map pyJsonEscapeChar) ++ "\""

/-- `n` spaces: the padding `json.dumps(..., indent=4)` writes. -/
def pad (n : Nat) : String := String.mk (List.replicate n ' ')

mutual

/-- Python `json.dumps(v, indent=indent)`: `indent = Option.none` is the
compact form (separators `", "` and `": "`), `some w` the indented form
(separators `","` + newline-and-padding and `": "`).  `depth` counts the
enclosing containers. -/
def pyDumpsVal (indent : Option Nat) (depth : Nat) : PyVal → String
  | .str s => pyJsonQuote s
  | .int n => toString n
  | .bool b => if b then "true" else "false"
  | .none => "null"
  | .list xs => pyDumpsListVal indent depth xs
  | .dict kvs => pyDumpsDictVal indent depth kvs

/-- `json.dumps` on a list (see `pyDumpsVal`). -/
def pyDumpsListVal (indent : Option Nat) (depth : Nat) : List PyVal → String
  | [] => "[]"
  | x :: xs =>
      match indent with
      | Option.none =>
          "[" ++ pyDumpsVal Option.none (depth + 1) x ++
            pyDumpsListTail Option.none (depth + 1) xs ++ "]"
      | some w =>
          "[\n" ++ pad (w * (depth + 1)) ++ pyDumpsVal (some w) (depth + 1) x ++
            pyDumpsListTail (some w) (depth + 1) xs ++
            "\n" ++ pad (w * depth) ++ "]"

/-- The remaining items of a list, each behind the item separator. -/
def pyDumpsListTail (indent : Option Nat) (depth : Nat) : List PyVal → String
  | [] => ""
  | x :: xs =>
      match indent with
      | Option.none =>
          ", " ++ pyDumpsVal Option.none depth x ++
            pyDumpsListTail Option.none depth xs
      | some w =>
          ",\n" ++ pad (w * depth) ++ pyDumpsVal (some w) depth x ++
            pyDumpsListTail (some w) depth xs

/-- `json.dumps` on a dict (see `pyDumpsVal`). -/
def pyDumpsDictVal (indent : Option Nat) (depth : Nat) :
    List (String × PyVal) → String
  | [] => "\x7b\x7d"
  | (k, v) :: kvs =>
      match indent with
      | Option.none =>
          "\x7b" ++ pyJsonQuote k ++ ": " ++ pyDumpsVal Option.none (depth + 1) v ++
            pyDumpsDictTail Option.none (depth + 1) kvs ++ "\x7d"
      | some w =>
          "\x7b\n" ++ pad (w * (depth + 1)) ++ pyJsonQuote k ++ ": " ++
            pyDumpsVal (some w) (depth + 1) v ++
            pyDumpsDictTail (some w) (depth + 1) kvs ++
            "\n" ++ pad (w * depth) ++ "\x7d"

/-- The remaining entries of a dict, each behind the item separator. -/
def pyDumpsDictTail (indent : Option Nat) (depth : Nat) :
    List (String × PyVal) → String
  | [] => ""
  | (k, v) :: kvs =>
      match indent with
      | Option.none =>
          ", " ++ pyJsonQuote k ++ ": " ++ pyDumpsVal Option.none depth v ++
            pyDumpsDictTail Option.none depth kvs
      | some w =>
          ",\n" ++ pad (w * depth) ++ pyJsonQuote k ++ ": " ++
            pyDumpsVal (some w) depth v ++
            pyDumpsDictTail (some w) depth kvs

end

/-- `json.dumps(v, indent=4)` as the handler templates call it. -/
def pyDumpsIndent4 (v : PyVal) : String := pyDumpsVal (some 4) 0 v

/-- `json.dumps(v)` (compact) as `handle_runtime_launch` calls it. -/
def pyDumps (v : PyVal) : String := pyDumpsVal Option.none 0 v

/-- The `{"code": ..., "filename": ..., "instructions": ...}` dictionary every
handler returns. -/
def mkToolResult (code filename instructions : String) : List (String × PyVal) :=
  [("code", .str code), ("filename", .str filename),
   ("instructions", .str instructions)]

/-- The `code` entry of a handler result (empty string when absent or not a
string, which no handler produces). -/
def resultCode (r : List (String × PyVal)) : String :=
  match pyGet r "code" with
  | some (.str s) => s
  | _ => ""

/-- The `code` entry of a possibly failed handler call. -/
def resultCodeOf (r : Except String (List (String × PyVal))) : String :=
  match r with
  | .ok res => resultCode res
  | .error _ => ""

/-! ### The strategy-name lookup table of `handle_memory_create` -/

/-- Python `strategy.get("name", "").lower()` of `handle_memory_create`:
`strategy` must be a dict (else `.get` raises); a present `name` must be a
string (else `.lower()` raises); an absent `name` defaults to `""`. -/
def strategyNameLower (s : PyVal) : Except String String := do
  let kvs ← asDict s
  match pyGet kvs "name" with
  | some v => do
      let n ← asStr v
      pure (pyLower n)
  | Option.none => pure ""

/-- One iteration of the strategy-transformation loop of
`handle_memory_create` (memory_handlers.py lines 23-40): wrap a recognized
strategy name under its boto3 tagged-union key, pass anything else through. -/
def transformOne (s : PyVal) : Except String PyVal := do
  let n ← strategyNameLower s
  if n = "summary" then
    pure (PyVal.dict [("summaryMemoryStrategy", s)])
  else if n = "preferences" then
    pure (PyVal.dict [("userPreferenceMemoryStrategy", s)])
  else if n = "semantic" then
    pure (PyVal.dict [("semanticMemoryStrategy", s)])
  else
    pure s

/-- The whole transformation loop: `transformed_strategies` accumulated in
input order. -/
def transformStrategies : List PyVal → Except String (List PyVal)
  | [] => .ok []
  | s :: rest => do
      let t ← transformOne s
      let ts ← transformStrategies rest
      pure (t :: ts)

/-! ### Memory handlers (src/agentcore-mcp-server/handlers/memory_handlers.py) -/

/-- Abbreviation for a Python `Dict` argument mapping / result. -/
abbrev ArgDict := List (String × PyVal)


/-- Parameter extraction of `handle_memory_create`, in source order:
region, name, description, strategies, then the transformation loop. -/
def memoryCreateParams (args : ArgDict) :
    Except String (String × String × String × List PyVal) := do
  let region ← argStrD args "region" "us-west-2"
  let name ← argStr args "name"
  let description ← argStrD args "description" ""
  let strategies ← pyIndex args "strategies" >>= asList
  let transformed_strategies ← transformStrategies strategies
  pure (region, name, description, transformed_strategies)

/-- The f-string template of `handle_memory_create`. -/
def memoryCreateCode (region name description : String)
    (transformed_strategies : List PyVal) : String :=

    "#!/usr/bin/env python3\n"
    ++ "\"\"\"\n"
    ++ "Script to create AgentCore Memory.\n"
    ++ "\n"
    ++ "This script creates an AgentCore Memory resource with memory strategies.\n"
    ++ "\"\"\"\n"
    ++ "\n"
    ++ "import json\n"
    ++ "from bedrock_agentcore_starter_toolkit.operations.memory.manager import MemoryManager\n"
    ++ "\n"
    ++ "# Define memory strategies in boto3 tagged union format\n"
    ++ "strategies = "
    ++ (pyDumpsIndent4 (PyVal.list transformed_strategies))
    ++ "\n"
    ++ "\n"
    ++ "# Create memory manager\n"
    ++ "memory_manager = MemoryManager(region_name='"
    ++ (region)
    ++ "')\n"
    ++ "\n"
    ++ "# Create memory\n"
    ++ "print(\"Creating AgentCore Memory...\")\n"
    ++ "memory = memory_manager.get_or_create_memory(\n"
    ++ "    name=\""
    ++ (name)
    ++ "\",\n"
    ++ "    description=\""
    ++ (description)
    ++ "\",\n"
    ++ "    strategies=strategies\n"
    ++ ")\n"
    ++ "\n"
    ++ "# Extract memory_id\n"
    ++ "memory_id = memory[\"id\"]\n"
    ++ "\n"
    ++ "# Save memory_id to config file\n"
    ++ "config = \x7b\n"
    ++ "    \"memory_id\": memory_id,\n"
    ++ "    \"name\": \""
    ++ (name)
    ++ "\",\n"
    ++ "    \"region\": \""
    ++ (region)
    ++ "\"\n"
    ++ "\x7d\n"
    ++ "\n"
    ++ "with open('memory_config.json', 'w') as f:\n"
    ++ "    json.dump(config, f, indent=2)\n"
    ++ "\n"
    ++ "print(f\"✓ Memory created successfully!\")\n"
    ++ "print(f\"  Memory ID: \x7bmemory_id\x7d\")\n"
    ++ "print(f\"✓ Configuration saved to memory_config.json\")\n"

/-- `handle_memory_create` (memory_handlers.py lines 11-89). -/
def handle_memory_create (args : ArgDict) : Except String ArgDict :=
  (memoryCreateParams args).map fun (region, name, description, ts) =>
    mkToolResult (memoryCreateCode region name description ts)
      (name.replace " " "_" ++ "_create.py")
      ("Run this script to create the AgentCore Memory resource '" ++ name ++ "'")


/-- Parameter extraction of `handle_memory_create_event`.  `memory_id` is
extracted (a missing key raises) but never interpolated into the template,
which loads the id from memory_config.json instead. -/
def memoryCreateEventParams (args : ArgDict) :
    Except String (String × String × String × String × PyVal) := do
  let region ← argStrD args "region" "us-west-2"
  let memory_id ← argStr args "memory_id"
  let actor_id ← argStr args "actor_id"
  let session_id ← argStr args "session_id"
  let messages ← pyIndex args "messages"
  pure (region, memory_id, actor_id, session_id, messages)

/-- The f-string template of `handle_memory_create_event`. -/
def memoryCreateEventCode (region actor_id session_id : String)
    (messages : PyVal) : String :=

    "#!/usr/bin/env python3\n"
    ++ "\"\"\"\n"
    ++ "Script to store conversation messages in AgentCore Memory.\n"
    ++ "\"\"\"\n"
    ++ "\n"
    ++ "import json\n"
    ++ "import time\n"
    ++ "\n"
    ++ "try:\n"
    ++ "    from bedrock_agentcore.memory import MemoryClient\n"
    ++ "except ImportError:\n"
    ++ "    print(\"✗ Error: bedrock_agentcore package not found\")\n"
    ++ "    print(\"  Install with: pip install bedrock-agentcore\")\n"
    ++ "    exit(1)\n"
    ++ "\n"
    ++ "# Load memory_id from config\n"
    ++ "with open('memory_config.json') as f:\n"
    ++ "    config = json.load(f)\n"
    ++ "    memory_id = config['memory_id']\n"
    ++ "\n"
    ++ "print(f\"Using Memory ID: \x7bmemory_id\x7d\")\n"
    ++ "\n"
    ++ "# Create memory client\n"
    ++ "memory_client = MemoryClient(region_name='"
    ++ (region)
    ++ "')\n"
    ++ "\n"
    ++ "# Define messages\n"
    ++ "messages = "
    ++ (pyDumpsIndent4 messages)
    ++ "\n"
    ++ "\n"
    ++ "# Normalize message format to match notebook expectations\n"
    ++ "for m in messages:\n"
    ++ "    if isinstance(m.get(\"content\"), str):\n"
    ++ "        m[\"content\"] = [\x7b\"text\": m[\"content\"]\x7d]\n"
    ++ "\n"
    ++ "# Store messages\n"
    ++ "print(\"Storing messages in memory...\")\n"
    ++ "memory_client.create_event(\n"
    ++ "    memory_id=memory_id,\n"
    ++ "    actor_id=\""
    ++ (actor_id)
    ++ "\",\n"
    ++ "    session_id=\""
    ++ (session_id)
    ++ "\",\n"
    ++ "    messages=messages\n"
    ++ ")\n"
    ++ "\n"
    ++ "print(f\"✓ Stored \x7blen(messages)\x7d messages successfully!\")\n"
    ++ "print(\"\\nNote: Memory processing takes 20-30 seconds to extract preferences, facts, and summaries.\")\n"
    ++ "print(\"Waiting 30 seconds for memory processing...\")\n"
    ++ "time.sleep(30)\n"
    ++ "print(\"✓ Memory processing complete!\")\n"

/-- `handle_memory_create_event` (memory_handlers.py lines 92-155). -/
def handle_memory_create_event (args : ArgDict) : Except String ArgDict :=
  (memoryCreateEventParams args).map
    fun (region, _memory_id, actor_id, session_id, messages) =>
      mkToolResult (memoryCreateEventCode region actor_id session_id messages)
        ("store_memory_event_" ++ actor_id ++ ".py")
        ("Run this script to store conversation messages for " ++ actor_id)


/-- Parameter extraction of `handle_memory_retrieve`.  `memory_id` is
extracted but never interpolated (the template loads it from
memory_config.json); the tool's `relevance_score` argument is never read
at all. -/
def memoryRetrieveParams (args : ArgDict) :
    Except String (String × String × String × String × Int) := do
  let region ← argStrD args "region" "us-west-2"
  let memory_id ← argStr args "memory_id"
  let nspace ← argStr args "namespace"
  let query ← argStr args "query"
  let top_k ← argIntD args "top_k" 3
  pure (region, memory_id, nspace, query, top_k)

/-- The f-string template of `handle_memory_retrieve`. -/
def memoryRetrieveCode (region nspace query : String) (top_k : Int) :
    String :=

    "#!/usr/bin/env python3\n"
    ++ "\"\"\"\n"
    ++ "Script to retrieve memories from AgentCore Memory.\n"
    ++ "\"\"\"\n"
    ++ "\n"
    ++ "import json\n"
    ++ "\n"
    ++ "try:\n"
    ++ "    from bedrock_agentcore.memory import MemoryClient\n"
    ++ "except ImportError:\n"
    ++ "    print(\"✗ Error: bedrock_agentcore package not found\")\n"
    ++ "    print(\"  Install with: pip install bedrock-agentcore\")\n"
    ++ "    exit(1)\n"
    ++ "\n"
    ++ "# Load memory_id from config\n"
    ++ "with open('memory_config.json') as f:\n"
    ++ "    config = json.load(f)\n"
    ++ "    memory_id = config['memory_id']\n"
    ++ "\n"
    ++ "print(f\"Using Memory ID: \x7bmemory_id\x7d\")\n"
    ++ "\n"
    ++ "# Create memory client\n"
    ++ "memory_client = MemoryClient(region_name='"
    ++ (region)
    ++ "')\n"
    ++ "\n"
    ++ "# Retrieve memories using the correct API method\n"
    ++ "print(f\"Retrieving memories from namespace: "
    ++ (nspace)
    ++ "\")\n"
    ++ "print(f\"Search query: "
    ++ (query)
    ++ "\")\n"
    ++ "print(f\"Top K: "
    ++ (toString top_k)
    ++ "\")\n"
    ++ "print()\n"
    ++ "\n"
    ++ "try:\n"
    ++ "    # Use retrieve_memories() method with correct parameters\n"
    ++ "    memories = memory_client.retrieve_memories(\n"
    ++ "        memory_id=memory_id,\n"
    ++ "        namespace=\""
    ++ (nspace)
    ++ "\",\n"
    ++ "        query=\""
    ++ (query)
    ++ "\",\n"
    ++ "        top_k="
    ++ (toString top_k)
    ++ "\n"
    ++ "    )\n"
    ++ "    \n"
    ++ "    if memories:\n"
    ++ "        print(f\"✓ Retrieved \x7blen(memories)\x7d memories from '"
    ++ (nspace)
    ++ "' namespace\")\n"
    ++ "        print()\n"
    ++ "        \n"
    ++ "        for i, memory in enumerate(memories, 1):\n"
    ++ "            print(f\"Memory \x7bi\x7d:\")\n"
    ++ "            print(f\"─────────────────────────────────────────\")\n"
    ++ "            content = memory.get('content', \x7b\x7d)\n"
    ++ "            if isinstance(content, dict):\n"
    ++ "                text = content.get('text', 'N/A')\n"
    ++ "            else:\n"
    ++ "                text = str(content)\n"
    ++ "            print(f\"Content: \x7btext\x7d\")\n"
    ++ "            \n"
    ++ "            # Safe formatting for relevance score\n"
    ++ "            relevance = memory.get('relevanceScore', 'N/A')\n"
    ++ "            if isinstance(relevance, (int, float)):\n"
    ++ "                print(f\"Relevance Score: \x7brelevance:.3f\x7d\")\n"
    ++ "            else:\n"
    ++ "                print(f\"Relevance Score: \x7brelevance\x7d\")\n"
    ++ "            print()\n"
    ++ "    else:\n"
    ++ "        print(\"⚠️  No memories found\")\n"
    ++ "        print(\"Memory extraction may still be processing (takes 20-30 seconds)\")\n"
    ++ "        \n"
    ++ "except Exception as e:\n"
    ++ "    print(f\"❌ Error retrieving memories: \x7be\x7d\")\n"
    ++ "    exit(1)\n"

/-- `handle_memory_retrieve` (memory_handlers.py lines 158-241). -/
def handle_memory_retrieve (args : ArgDict) : Except String ArgDict :=
  (memoryRetrieveParams args).map
    fun (region, _memory_id, nspace, query, top_k) =>
      mkToolResult (memoryRetrieveCode region nspace query top_k)
        "retrieve_memories.py"
        ("Run this script to retrieve memories from namespace '" ++ nspace ++ "'")


/-- Parameter extraction of `handle_memory_delete` (`memory_id` extracted
but not interpolated: the template loads it from memory_config.json). -/
def memoryDeleteParams (args : ArgDict) : Except String (String × String) := do
  let region ← argStrD args "region" "us-west-2"
  let memory_id ← argStr args "memory_id"
  pure (region, memory_id)

/-- The f-string template of `handle_memory_delete`. -/
def memoryDeleteCode (region : String) : String :=

    "#!/usr/bin/env python3\n"
    ++ "\"\"\"\n"
    ++ "Script to delete AgentCore Memory.\n"
    ++ "\n"
    ++ "WARNING: This permanently deletes the memory and all stored data.\n"
    ++ "RERUNNABLE: Safe to run multiple times - handles missing resources gracefully.\n"
    ++ "\"\"\"\n"
    ++ "\n"
    ++ "import json\n"
    ++ "import os\n"
    ++ "from bedrock_agentcore_starter_toolkit.operations.memory.manager import MemoryManager\n"
    ++ "\n"
    ++ "print(\"Deleting AgentCore Memory...\")\n"
    ++ "\n"
    ++ "# Check if memory config exists\n"
    ++ "if not os.path.exists('memory_config.json'):\n"
    ++ "    print(\"⚠️  Memory config not found - nothing to delete\")\n"
    ++ "    print(\"✓ Script completed successfully (no resources to delete)\")\n"
    ++ "    exit(0)\n"
    ++ "\n"
    ++ "# Load memory_id from config\n"
    ++ "try:\n"
    ++ "    with open('memory_config.json') as f:\n"
    ++ "        config = json.load(f)\n"
    ++ "        memory_id = config['memory_id']\n"
    ++ "except Exception as e:\n"
    ++ "    print(f\"⚠️  Failed to load memory config: \x7be\x7d\")\n"
    ++ "    print(\"✓ Script completed successfully (no resources to delete)\")\n"
    ++ "    exit(0)\n"
    ++ "\n"
    ++ "# Create memory manager\n"
    ++ "memory_manager = MemoryManager(region_name='"
    ++ (region)
    ++ "')\n"
    ++ "\n"
    ++ "# Delete memory\n"
    ++ "try:\n"
    ++ "    print(f\"  Memory ID: \x7bmemory_id\x7d\")\n"
    ++ "    memory_manager.delete_memory(memory_id=memory_id)\n"
    ++ "    print(\"✓ Memory deleted successfully!\")\n"
    ++ "except Exception as e:\n"
    ++ "    error_msg = str(e).lower()\n"
    ++ "    if \"not found\" in error_msg or \"does not exist\" in error_msg or \"resourcenotfound\" in error_msg:\n"
    ++ "        print(\"⚠️  Memory already deleted or not found\")\n"
    ++ "        print(\"✓ Script completed successfully (resource already removed)\")\n"
    ++ "    else:\n"
    ++ "        print(f\"✗ Error deleting memory: \x7be\x7d\")\n"
    ++ "        exit(1)\n"
    ++ "\n"
    ++ "print(\"\\n✓ Memory deletion completed successfully\")\n"
    ++ "print(\"✓ This script is RERUNNABLE - you can safely run it multiple times.\")\n"

/-- `handle_memory_delete` (memory_handlers.py lines 244-306). -/
def handle_memory_delete (args : ArgDict) : Except String ArgDict :=
  (memoryDeleteParams args).map fun (region, _memory_id) =>
    mkToolResult (memoryDeleteCode region)
      "delete_memory.py"
      "Run this script to delete the AgentCore Memory resource"


/-! ### Gateway handlers (src/mybkp/agentcore-mcp-server/handlers/gateway_handlers.py) -/

/-- Parameter extraction and protocol validation of `handle_gateway_create`.
`role_arn`, `cognito_client_id` and `cognito_discovery_url` are extracted
(missing keys raise) but not interpolated: the template loads them from
the config files. -/
def gatewayCreateParams (args : ArgDict) :
    Except String
      (String × String × String × String × String × String × String × String) := do
  let region ← argStrD args "region" "us-west-2"
  let name ← argStr args "name"
  let role_arn ← argStr args "role_arn"
  let cognito_client_id ← argStr args "cognito_client_id"
  let cognito_discovery_url ← argStr args "cognito_discovery_url"
  let protocol_type ← argStrD args "protocol_type" "MCP"
  let authorizer_type ← argStrD args "authorizer_type" "CUSTOM_JWT"
  let description ← argStrD args "description" ""
  if protocol_type ≠ "MCP" then
    throw "ValueError: Only MCP protocol is supported in this handler"
  pure (region, name, role_arn, cognito_client_id, cognito_discovery_url,
        protocol_type, authorizer_type, description)

/-- The f-string template of `handle_gateway_create`. -/
def gatewayCreateCode (region name protocol_type authorizer_type description :
    String) : String :=

    "#!/usr/bin/env python3\n"
    ++ "\"\"\"\n"
    ++ "Script to create AgentCore Gateway.\n"
    ++ "\n"
    ++ "Prerequisites:\n"
    ++ "- cognito_config.json (from Cognito setup)\n"
    ++ "- gateway_role_config.json (from IAM role setup)\n"
    ++ "\"\"\"\n"
    ++ "\n"
    ++ "import json\n"
    ++ "import boto3\n"
    ++ "\n"
    ++ "# Load configuration\n"
    ++ "with open('cognito_config.json') as f:\n"
    ++ "    cognito_config = json.load(f)\n"
    ++ "with open('gateway_role_config.json') as f:\n"
    ++ "    role_config = json.load(f)\n"
    ++ "\n"
    ++ "# Initialize AgentCore control plane client\n"
    ++ "gateway_client = boto3.client(\"bedrock-agentcore-control\", region_name='"
    ++ (region)
    ++ "')\n"
    ++ "\n"
    ++ "# Build auth configuration for Cognito JWT\n"
    ++ "auth_config = \x7b\n"
    ++ "    \"customJWTAuthorizer\": \x7b\n"
    ++ "        \"allowedClients\": [cognito_config[\"client_id\"]],\n"
    ++ "        \"discoveryUrl\": cognito_config[\"discovery_url\"]\n"
    ++ "    \x7d\n"
    ++ "\x7d\n"
    ++ "\n"
    ++ "# Create gateway\n"
    ++ "print(\"Creating AgentCore Gateway...\")\n"
    ++ "create_response = gateway_client.create_gateway(\n"
    ++ "    name=\""
    ++ (name)
    ++ "\",\n"
    ++ "    roleArn=role_config[\"role_arn\"],\n"
    ++ "    protocolType=\""
    ++ (protocol_type)
    ++ "\",\n"
    ++ "    authorizerType=\""
    ++ (authorizer_type)
    ++ "\",\n"
    ++ "    authorizerConfiguration=auth_config,\n"
    ++ "    description=\""
    ++ (description)
    ++ "\"\n"
    ++ ")\n"
    ++ "\n"
    ++ "# Extract gateway details\n"
    ++ "gateway_id = create_response[\"gatewayId\"]\n"
    ++ "gateway_url = create_response[\"gatewayUrl\"]\n"
    ++ "gateway_arn = create_response[\"gatewayArn\"]\n"
    ++ "\n"
    ++ "# Save gateway config (using 'id' to match reference code pattern)\n"
    ++ "config = \x7b\n"
    ++ "    \"id\": gateway_id,\n"
    ++ "    \"gateway_id\": gateway_id,  # Keep for backward compatibility\n"
    ++ "    \"gateway_url\": gateway_url,\n"
    ++ "    \"gateway_arn\": gateway_arn,\n"
    ++ "    \"name\": \""
    ++ (name)
    ++ "\",\n"
    ++ "    \"region\": \""
    ++ (region)
    ++ "\"\n"
    ++ "\x7d\n"
    ++ "\n"
    ++ "with open('gateway_config.json', 'w') as f:\n"
    ++ "    json.dump(config, f, indent=2)\n"
    ++ "\n"
    ++ "print(f\"✓ Gateway created successfully!\")\n"
    ++ "print(f\"  Gateway ID: \x7bgateway_id\x7d\")\n"
    ++ "print(f\"  Gateway URL: \x7bgateway_url\x7d\")\n"
    ++ "print(f\"✓ Configuration saved to gateway_config.json\")\n"

/-- `handle_gateway_create` (gateway_handlers.py lines 11-96). -/
def handle_gateway_create (args : ArgDict) : Except String ArgDict :=
  (gatewayCreateParams args).map
    fun (region, name, _role_arn, _ccid, _cdu, protocol_type, authorizer_type,
         description) =>
      mkToolResult
        (gatewayCreateCode region name protocol_type authorizer_type description)
        ((pyLower name).replace " " "_" ++ "_gateway_create.py")
        ("Ensure cognito_config.json and gateway_role_config.json exist, " ++
          "then run this script to create the AgentCore Gateway '" ++ name ++ "'")


/-- Parameter extraction of `handle_gateway_add_lambda_target`; the tool's
`gateway_id` argument is never read (the generated script loads the id
from gateway_config.json). -/
def gatewayAddLambdaTargetParams (args : ArgDict) :
    Except String (String × String × String × PyVal × String) := do
  let region ← argStrD args "region" "us-west-2"
  let target_name ← argStr args "target_name"
  let lambda_arn ← argStr args "lambda_arn"
  let tool_schema ← pyIndex args "tool_schema"
  let target_description ← argStrD args "target_description" ""
  pure (region, target_name, lambda_arn, tool_schema, target_description)

/-- The f-string template of `handle_gateway_add_lambda_target`.  Note: it
prints the target id but contains no write to gateway_config.json. -/
def gatewayAddLambdaTargetCode (region target_name lambda_arn : String)
    (tool_schema : PyVal) (target_description : String) : String :=

    "#!/usr/bin/env python3\n"
    ++ "\"\"\"\n"
    ++ "Script to add Lambda target to AgentCore Gateway.\n"
    ++ "\n"
    ++ "Prerequisites:\n"
    ++ "- gateway_config.json (from gateway creation)\n"
    ++ "\"\"\"\n"
    ++ "\n"
    ++ "import json\n"
    ++ "import boto3\n"
    ++ "\n"
    ++ "# Load gateway configuration\n"
    ++ "with open('gateway_config.json') as f:\n"
    ++ "    gateway_config = json.load(f)\n"
    ++ "\n"
    ++ "# Initialize AgentCore control plane client\n"
    ++ "gateway_client = boto3.client(\"bedrock-agentcore-control\", region_name='"
    ++ (region)
    ++ "')\n"
    ++ "\n"
    ++ "# Lambda ARN and tool schema (inlined from MCP call)\n"
    ++ "lambda_arn = \""
    ++ (lambda_arn)
    ++ "\"\n"
    ++ "tool_schema = "
    ++ (pyDumpsIndent4 tool_schema)
    ++ "\n"
    ++ "\n"
    ++ "# Build Lambda target configuration with MCP protocol\n"
    ++ "lambda_target_config = \x7b\n"
    ++ "    \"mcp\": \x7b\n"
    ++ "        \"lambda\": \x7b\n"
    ++ "            \"lambdaArn\": lambda_arn,\n"
    ++ "            \"toolSchema\": \x7b\n"
    ++ "                \"inlinePayload\": tool_schema\n"
    ++ "            \x7d\n"
    ++ "        \x7d\n"
    ++ "    \x7d\n"
    ++ "\x7d\n"
    ++ "\n"
    ++ "# Use gateway's IAM role for Lambda invocation\n"
    ++ "credential_config = [\x7b\"credentialProviderType\": \"GATEWAY_IAM_ROLE\"\x7d]\n"
    ++ "\n"
    ++ "# Create target\n"
    ++ "print(\"Adding Lambda target to gateway...\")\n"
    ++ "print(f\"  Gateway ID: \x7bgateway_config['gateway_id']\x7d\")\n"
    ++ "print(f\"  Target Name: "
    ++ (target_name)
    ++ "\")\n"
    ++ "print(f\"  Lambda ARN: \x7blambda_arn\x7d\")\n"
    ++ "\n"
    ++ "create_response = gateway_client.create_gateway_target(\n"
    ++ "    gatewayIdentifier=gateway_config[\"gateway_id\"],\n"
    ++ "    name=\""
    ++ (target_name)
    ++ "\",\n"
    ++ "    description=\""
    ++ (target_description)
    ++ "\",\n"
    ++ "    targetConfiguration=lambda_target_config,\n"
    ++ "    credentialProviderConfigurations=credential_config\n"
    ++ ")\n"
    ++ "\n"
    ++ "target_id = create_response[\"targetId\"]\n"
    ++ "\n"
    ++ "print(f\"\\n✓ Lambda target added successfully!\")\n"
    ++ "print(f\"  Target ID: \x7btarget_id\x7d\")\n"
    ++ "print(f\"  Target Name: "
    ++ (target_name)
    ++ "\")\n"

/-- `handle_gateway_add_lambda_target` (gateway_handlers.py lines 99-176). -/
def handle_gateway_add_lambda_target (args : ArgDict) : Except String ArgDict :=
  (gatewayAddLambdaTargetParams args).map
    fun (region, target_name, lambda_arn, tool_schema, target_description) =>
      mkToolResult
        (gatewayAddLambdaTargetCode region target_name lambda_arn tool_schema
          target_description)
        ("add_" ++ (pyLower target_name).replace " " "_" ++ "_target.py")
        ("Ensure gateway_config.json exists, then run this script to add " ++
          "Lambda target '" ++ target_name ++ "' to the gateway")


/-- Parameter extraction of `handle_gateway_list_targets` (only `region`;
the tool's `gateway_id` argument is never read). -/
def gatewayListTargetsParams (args : ArgDict) : Except String String :=
  argStrD args "region" "us-west-2"

/-- The f-string template of `handle_gateway_list_targets`. -/
def gatewayListTargetsCode (region : String) : String :=

    "#!/usr/bin/env python3\n"
    ++ "\"\"\"\n"
    ++ "Script to list AgentCore Gateway targets.\n"
    ++ "\n"
    ++ "Prerequisites:\n"
    ++ "- gateway_config.json (from gateway creation)\n"
    ++ "\"\"\"\n"
    ++ "\n"
    ++ "import json\n"
    ++ "import boto3\n"
    ++ "\n"
    ++ "# Load configuration\n"
    ++ "with open('gateway_config.json') as f:\n"
    ++ "    gateway_config = json.load(f)\n"
    ++ "\n"
    ++ "# Initialize AgentCore control plane client\n"
    ++ "gateway_client = boto3.client(\"bedrock-agentcore-control\", region_name='"
    ++ (region)
    ++ "')\n"
    ++ "\n"
    ++ "# List targets using correct API method\n"
    ++ "print(f\"Listing targets for gateway: \x7bgateway_config['gateway_id']\x7d\")\n"
    ++ "response = gateway_client.list_gateway_targets(\n"
    ++ "    gatewayIdentifier=gateway_config[\"gateway_id\"]\n"
    ++ ")\n"
    ++ "\n"
    ++ "targets = response.get(\"items\", [])\n"
    ++ "\n"
    ++ "print(f\"\\n✓ Found \x7blen(targets)\x7d target(s):\")\n"
    ++ "for i, target in enumerate(targets, 1):\n"
    ++ "    print(f\"\\n\x7bi\x7d. \x7btarget.get('name', 'N/A')\x7d\")\n"
    ++ "    print(f\"   Target ID: \x7btarget.get('targetId', 'N/A')\x7d\")\n"
    ++ "    print(f\"   Status: \x7btarget.get('status', 'unknown')\x7d\")\n"
    ++ "    print(f\"   Description: \x7btarget.get('description', 'N/A')\x7d\")\n"

/-- `handle_gateway_list_targets` (gateway_handlers.py lines 179-227). -/
def handle_gateway_list_targets (args : ArgDict) : Except String ArgDict :=
  (gatewayListTargetsParams args).map fun region =>
    mkToolResult (gatewayListTargetsCode region)
      "list_gateway_targets.py"
      "Ensure gateway_config.json exists, then run this script to list all gateway targets"


/-- Parameter extraction of `handle_gateway_delete_target` (`target_id`
from args; the tool's `gateway_id` argument is never read). -/
def gatewayDeleteTargetParams (args : ArgDict) :
    Except String (String × String) := do
  let region ← argStrD args "region" "us-west-2"
  let target_id ← argStr args "target_id"
  pure (region, target_id)

/-- The f-string template of `handle_gateway_delete_target`. -/
def gatewayDeleteTargetCode (region target_id : String) : String :=

    "#!/usr/bin/env python3\n"
    ++ "\"\"\"\n"
    ++ "Script to delete a target from AgentCore Gateway.\n"
    ++ "\n"
    ++ "WARNING: This removes the tool from the gateway.\n"
    ++ "RERUNNABLE: Safe to run multiple times - handles missing resources gracefully.\n"
    ++ "\n"
    ++ "Prerequisites:\n"
    ++ "- gateway_config.json (from gateway creation)\n"
    ++ "\"\"\"\n"
    ++ "\n"
    ++ "import json\n"
    ++ "import os\n"
    ++ "import boto3\n"
    ++ "\n"
    ++ "print(\"Deleting gateway target...\")\n"
    ++ "\n"
    ++ "# Check if gateway config exists\n"
    ++ "if not os.path.exists('gateway_config.json'):\n"
    ++ "    print(\"⚠️  Gateway config not found - nothing to delete\")\n"
    ++ "    print(\"✓ Script completed successfully (no resources to delete)\")\n"
    ++ "    exit(0)\n"
    ++ "\n"
    ++ "# Load configuration\n"
    ++ "try:\n"
    ++ "    with open('gateway_config.json') as f:\n"
    ++ "        gateway_config = json.load(f)\n"
    ++ "except Exception as e:\n"
    ++ "    print(f\"⚠️  Failed to load gateway config: \x7be\x7d\")\n"
    ++ "    print(\"✓ Script completed successfully (no resources to delete)\")\n"
    ++ "    exit(0)\n"
    ++ "\n"
    ++ "# Initialize AgentCore control plane client\n"
    ++ "gateway_client = boto3.client(\"bedrock-agentcore-control\", region_name='"
    ++ (region)
    ++ "')\n"
    ++ "\n"
    ++ "# Delete target using correct API method name\n"
    ++ "try:\n"
    ++ "    print(f\"  Gateway ID: \x7bgateway_config['gateway_id']\x7d\")\n"
    ++ "    print(f\"  Target ID: "
    ++ (target_id)
    ++ "\")\n"
    ++ "    \n"
    ++ "    gateway_client.delete_gateway_target(\n"
    ++ "        gatewayIdentifier=gateway_config[\"gateway_id\"],\n"
    ++ "        targetId=\""
    ++ (target_id)
    ++ "\"\n"
    ++ "    )\n"
    ++ "    print(\"✓ Gateway target deleted successfully!\")\n"
    ++ "except Exception as e:\n"
    ++ "    error_msg = str(e).lower()\n"
    ++ "    if \"resourcenotfound\" in error_msg or \"not found\" in error_msg:\n"
    ++ "        print(\"⚠️  Target already deleted or not found\")\n"
    ++ "        print(\"✓ Script completed successfully (resource already removed)\")\n"
    ++ "    else:\n"
    ++ "        print(f\"✗ Error deleting target: \x7be\x7d\")\n"
    ++ "        exit(1)\n"
    ++ "\n"
    ++ "print(\"\\n✓ Target deletion completed successfully\")\n"
    ++ "print(\"✓ This script is RERUNNABLE - you can safely run it multiple times.\")\n"

/-- `handle_gateway_delete_target` (gateway_handlers.py lines 230-303). -/
def handle_gateway_delete_target (args : ArgDict) : Except String ArgDict :=
  (gatewayDeleteTargetParams args).map fun (region, target_id) =>
    mkToolResult (gatewayDeleteTargetCode region target_id)
      "delete_gateway_target.py"
      ("Ensure gateway_config.json exists, then run this script to delete " ++
        "target '" ++ target_id ++ "'")


/-- Parameter extraction of `handle_gateway_delete` (only `region`; the
tool's `gateway_id` argument is never read). -/
def gatewayDeleteParams (args : ArgDict) : Except String String :=
  argStrD args "region" "us-west-2"

/-- The f-string template of `handle_gateway_delete`: the two-phase delete
script (targets first, one-time wait-and-recheck, then the gateway). -/
def gatewayDeleteCode (region : String) : String :=

    "#!/usr/bin/env python3\n"
    ++ "\"\"\"\n"
    ++ "Script to delete AgentCore Gateway.\n"
    ++ "\n"
    ++ "WARNING: This permanently deletes the gateway and all its targets.\n"
    ++ "RERUNNABLE: Safe to run multiple times - handles missing resources gracefully.\n"
    ++ "\n"
    ++ "Prerequisites:\n"
    ++ "- gateway_config.json (from gateway creation)\n"
    ++ "\"\"\"\n"
    ++ "\n"
    ++ "import json\n"
    ++ "import os\n"
    ++ "import boto3\n"
    ++ "\n"
    ++ "print(\"=\" * 80)\n"
    ++ "print(\"Delete AgentCore Gateway\")\n"
    ++ "print(\"=\" * 80)\n"
    ++ "\n"
    ++ "# Check if gateway config exists\n"
    ++ "if not os.path.exists('gateway_config.json'):\n"
    ++ "    print(\"⚠️  Gateway config not found - nothing to delete\")\n"
    ++ "    print(\"✓ Script completed successfully (no resources to delete)\")\n"
    ++ "    exit(0)\n"
    ++ "\n"
    ++ "# Load configuration\n"
    ++ "try:\n"
    ++ "    with open('gateway_config.json') as f:\n"
    ++ "        gateway_config = json.load(f)\n"
    ++ "except Exception as e:\n"
    ++ "    print(f\"⚠️  Failed to load gateway config: \x7be\x7d\")\n"
    ++ "    print(\"✓ Script completed successfully (no resources to delete)\")\n"
    ++ "    exit(0)\n"
    ++ "\n"
    ++ "# Initialize AgentCore control plane client\n"
    ++ "gateway_client = boto3.client(\"bedrock-agentcore-control\", region_name='"
    ++ (region)
    ++ "')\n"
    ++ "\n"
    ++ "print(f\"\\nGateway ID: \x7bgateway_config['gateway_id']\x7d\")\n"
    ++ "\n"
    ++ "# Step 1: Delete all targets first\n"
    ++ "print(\"\\nStep 1: Deleting gateway targets...\")\n"
    ++ "try:\n"
    ++ "    response = gateway_client.list_gateway_targets(gatewayIdentifier=gateway_config[\"gateway_id\"])\n"
    ++ "    targets = response.get('items', [])\n"
    ++ "    \n"
    ++ "    if targets:\n"
    ++ "        for target in targets:\n"
    ++ "            try:\n"
    ++ "                gateway_client.delete_gateway_target(\n"
    ++ "                    gatewayIdentifier=gateway_config[\"gateway_id\"],\n"
    ++ "                    targetId=target['targetId']\n"
    ++ "                )\n"
    ++ "                print(f\"✓ Deleted target: \x7btarget.get('name', target['targetId'])\x7d\")\n"
    ++ "            except Exception as e:\n"
    ++ "                if \"ResourceNotFound\" in str(e) or \"not found\" in str(e).lower():\n"
    ++ "                    print(f\"⚠️  Target already deleted: \x7btarget.get('name', target['targetId'])\x7d\")\n"
    ++ "                else:\n"
    ++ "                    print(f\"✗ Error deleting target: \x7be\x7d\")\n"
    ++ "                    raise  # Re-raise to prevent gateway deletion\n"
    ++ "    else:\n"
    ++ "        print(\"⚠️  No targets found\")\n"
    ++ "except Exception as e:\n"
    ++ "    if \"ResourceNotFound\" in str(e) or \"not found\" in str(e).lower():\n"
    ++ "        print(\"⚠️  Gateway not found (may already be deleted)\")\n"
    ++ "    else:\n"
    ++ "        print(f\"⚠️  Could not delete targets: \x7be\x7d\")\n"
    ++ "        raise  # Re-raise to prevent gateway deletion\n"
    ++ "\n"
    ++ "# Step 1.5: Verify all targets are deleted\n"
    ++ "print(\"\\nStep 1.5: Verifying targets are deleted...\")\n"
    ++ "try:\n"
    ++ "    response = gateway_client.list_gateway_targets(gatewayIdentifier=gateway_config[\"gateway_id\"])\n"
    ++ "    remaining_targets = response.get('items', [])\n"
    ++ "    if remaining_targets:\n"
    ++ "        print(f\"⚠️  Warning: \x7blen(remaining_targets)\x7d target(s) still exist. Waiting 5 seconds...\")\n"
    ++ "        import time\n"
    ++ "        time.sleep(5)\n"
    ++ "        # Check again\n"
    ++ "        response = gateway_client.list_gateway_targets(gatewayIdentifier=gateway_config[\"gateway_id\"])\n"
    ++ "        remaining_targets = response.get('items', [])\n"
    ++ "        if remaining_targets:\n"
    ++ "            print(f\"✗ Error: \x7blen(remaining_targets)\x7d target(s) still exist after waiting\")\n"
    ++ "            for target in remaining_targets:\n"
    ++ "                print(f\"  - \x7btarget.get('name', target['targetId'])\x7d (\x7btarget['targetId']\x7d)\")\n"
    ++ "            print(\"\\nPlease wait a few moments and run this script again.\")\n"
    ++ "            exit(1)\n"
    ++ "    print(\"✓ All targets confirmed deleted\")\n"
    ++ "except Exception as e:\n"
    ++ "    if \"ResourceNotFound\" not in str(e) and \"not found\" not in str(e).lower():\n"
    ++ "        print(f\"⚠️  Could not verify targets: \x7be\x7d\")\n"
    ++ "\n"
    ++ "# Step 2: Delete gateway\n"
    ++ "print(\"\\nStep 2: Deleting gateway...\")\n"
    ++ "try:\n"
    ++ "    gateway_client.delete_gateway(\n"
    ++ "        gatewayIdentifier=gateway_config[\"gateway_id\"]\n"
    ++ "    )\n"
    ++ "    print(\"✓ Gateway deleted successfully!\")\n"
    ++ "except Exception as e:\n"
    ++ "    error_msg = str(e).lower()\n"
    ++ "    if \"resourcenotfound\" in error_msg or \"not found\" in error_msg:\n"
    ++ "        print(\"⚠️  Gateway already deleted or not found\")\n"
    ++ "        print(\"✓ Script completed successfully (resource already removed)\")\n"
    ++ "    else:\n"
    ++ "        print(f\"✗ Error deleting gateway: \x7be\x7d\")\n"
    ++ "        exit(1)\n"
    ++ "\n"
    ++ "print(\"\\n\" + \"=\" * 80)\n"
    ++ "print(\"✓ Gateway deletion completed successfully\")\n"
    ++ "print(\"✓ This script is RERUNNABLE - you can safely run it multiple times.\")\n"
    ++ "print(\"=\" * 80)\n"

/-- `handle_gateway_delete` (gateway_handlers.py lines 306-433). -/
def handle_gateway_delete (args : ArgDict) : Except String ArgDict :=
  (gatewayDeleteParams args).map fun region =>
    mkToolResult (gatewayDeleteCode region)
      "delete_gateway.py"
      "Ensure gateway_config.json exists, then run this script to delete the AgentCore Gateway and all its targets"


/-! ### Runtime handlers (src/mybkp/agentcore-mcp-server/handlers/runtime_handlers.py) -/

/-- Parameter extraction of `handle_runtime_configure`.  `execution_role`,
`cognito_client_id` and `cognito_discovery_url` are extracted but not
interpolated (the template loads them from the config files). -/
def runtimeConfigureParams (args : ArgDict) :
    Except String
      (String × String × String × String × String × String × Bool × String × String) := do
  let region ← argStrD args "region" "us-west-2"
  let entrypoint ← argStr args "entrypoint"
  let agent_name ← argStr args "agent_name"
  let execution_role ← argStr args "execution_role"
  let cognito_client_id ← argStr args "cognito_client_id"
  let cognito_discovery_url ← argStr args "cognito_discovery_url"
  let auto_create_ecr ← argBoolD args "auto_create_ecr" true
  let memory_mode ← argStrD args "memory_mode" "NO_MEMORY"
  let requirements_file ← argStrD args "requirements_file" "requirements.txt"
  pure (region, entrypoint, agent_name, execution_role, cognito_client_id,
        cognito_discovery_url, auto_create_ecr, memory_mode, requirements_file)

/-- The f-string template of `handle_runtime_configure`. -/
def runtimeConfigureCode (region entrypoint agent_name : String)
    (auto_create_ecr : Bool) (memory_mode requirements_file : String) : String :=

    "#!/usr/bin/env python3\n"
    ++ "\"\"\"\n"
    ++ "Script to configure AgentCore Runtime deployment.\n"
    ++ "\"\"\"\n"
    ++ "\n"
    ++ "import json\n"
    ++ "from bedrock_agentcore_starter_toolkit import Runtime\n"
    ++ "\n"
    ++ "# Load configuration\n"
    ++ "with open('runtime_execution_role_config.json') as f:\n"
    ++ "    role_config = json.load(f)\n"
    ++ "with open('cognito_config.json') as f:\n"
    ++ "    cognito_config = json.load(f)\n"
    ++ "\n"
    ++ "# Initialize Runtime\n"
    ++ "runtime = Runtime()\n"
    ++ "\n"
    ++ "# Build authorizer configuration for Cognito JWT\n"
    ++ "auth_config = \x7b\n"
    ++ "    \"customJWTAuthorizer\": \x7b\n"
    ++ "        \"allowedClients\": [cognito_config[\"client_id\"]],\n"
    ++ "        \"discoveryUrl\": cognito_config[\"discovery_url\"]\n"
    ++ "    \x7d\n"
    ++ "\x7d\n"
    ++ "\n"
    ++ "# Configure runtime deployment\n"
    ++ "print(\"Configuring AgentCore Runtime...\")\n"
    ++ "response = runtime.configure(\n"
    ++ "    entrypoint=\""
    ++ (entrypoint)
    ++ "\",\n"
    ++ "    agent_name=\""
    ++ (agent_name)
    ++ "\",\n"
    ++ "    execution_role=role_config[\"role_arn\"],\n"
    ++ "    auto_create_ecr="
    ++ (pyBoolStr auto_create_ecr)
    ++ ",\n"
    ++ "    memory_mode=\""
    ++ (memory_mode)
    ++ "\",\n"
    ++ "    requirements_file=\""
    ++ (requirements_file)
    ++ "\",\n"
    ++ "    region=\""
    ++ (region)
    ++ "\",\n"
    ++ "    authorizer_configuration=auth_config\n"
    ++ ")\n"
    ++ "\n"
    ++ "print(\"✓ Runtime configured successfully!\")\n"
    ++ "print(\"  Configuration saved to .bedrock_agentcore.yaml\")\n"
    ++ "print(\"  Next step: Run launch script to deploy the agent\")\n"

/-- `handle_runtime_configure` (runtime_handlers.py lines 11-72). -/
def handle_runtime_configure (args : ArgDict) : Except String ArgDict :=
  (runtimeConfigureParams args).map
    fun (region, entrypoint, agent_name, _er, _cci, _cdu, auto_create_ecr,
         memory_mode, requirements_file) =>
      mkToolResult
        (runtimeConfigureCode region entrypoint agent_name auto_create_ecr
          memory_mode requirements_file)
        "configure_runtime.py"
        "Run this script to configure AgentCore Runtime deployment settings"


/-- Parameter extraction of `handle_runtime_launch`. -/
def runtimeLaunchParams (args : ArgDict) :
    Except String (String × PyVal × Bool) := do
  let region ← argStrD args "region" "us-west-2"
  let env_vars ← pyIndex args "env_vars"
  let auto_update_on_conflict ← argBoolD args "auto_update_on_conflict" true
  pure (region, env_vars, auto_update_on_conflict)

/-- The f-string template of `handle_runtime_launch`. -/
def runtimeLaunchCode (region : String) (env_vars_dict : PyVal)
    (auto_update_on_conflict : Bool) : String :=

    "#!/usr/bin/env python3\n"
    ++ "\"\"\"\n"
    ++ "Script to launch agent to AgentCore Runtime.\n"
    ++ "\n"
    ++ "This creates a CodeBuild pipeline, builds Docker container, pushes to ECR,\n"
    ++ "and deploys to runtime. Process takes 5-10 minutes.\n"
    ++ "\"\"\"\n"
    ++ "\n"
    ++ "import json\n"
    ++ "import os\n"
    ++ "from bedrock_agentcore_starter_toolkit import Runtime\n"
    ++ "\n"
    ++ "# Load configuration files that exist\n"
    ++ "config_files = \x7b\x7d\n"
    ++ "\n"
    ++ "if os.path.exists('memory_config.json'):\n"
    ++ "    with open('memory_config.json') as f:\n"
    ++ "        config_files['memory'] = json.load(f)\n"
    ++ "\n"
    ++ "if os.path.exists('gateway_config.json'):\n"
    ++ "    with open('gateway_config.json') as f:\n"
    ++ "        config_files['gateway'] = json.load(f)\n"
    ++ "\n"
    ++ "if os.path.exists('cognito_config.json'):\n"
    ++ "    with open('cognito_config.json') as f:\n"
    ++ "        config_files['cognito'] = json.load(f)\n"
    ++ "else:\n"
    ++ "    print(\"❌ Error: cognito_config.json not found\")\n"
    ++ "    exit(1)\n"
    ++ "\n"
    ++ "if os.path.exists('runtime_execution_role_config.json'):\n"
    ++ "    with open('runtime_execution_role_config.json') as f:\n"
    ++ "        config_files['role'] = json.load(f)\n"
    ++ "else:\n"
    ++ "    print(\"❌ Error: runtime_execution_role_config.json not found\")\n"
    ++ "    exit(1)\n"
    ++ "\n"
    ++ "# Load .bedrock_agentcore.yaml to get agent name and entrypoint\n"
    ++ "if not os.path.exists('.bedrock_agentcore.yaml'):\n"
    ++ "    print(\"❌ Error: .bedrock_agentcore.yaml not found\")\n"
    ++ "    print(\"Please run configure_runtime.py first\")\n"
    ++ "    exit(1)\n"
    ++ "\n"
    ++ "import yaml\n"
    ++ "with open('.bedrock_agentcore.yaml') as f:\n"
    ++ "    runtime_config = yaml.safe_load(f)\n"
    ++ "\n"
    ++ "default_agent = runtime_config.get('default_agent')\n"
    ++ "agent_config = runtime_config.get('agents', \x7b\x7d).get(default_agent, \x7b\x7d)\n"
    ++ "agent_name = agent_config.get('name')\n"
    ++ "entrypoint = agent_config.get('entrypoint')\n"
    ++ "\n"
    ++ "# Initialize Runtime\n"
    ++ "runtime = Runtime()\n"
    ++ "\n"
    ++ "# Build authorizer configuration for Cognito JWT\n"
    ++ "auth_config = \x7b\n"
    ++ "    \"customJWTAuthorizer\": \x7b\n"
    ++ "        \"allowedClients\": [config_files['cognito'][\"client_id\"]],\n"
    ++ "        \"discoveryUrl\": config_files['cognito'][\"discovery_url\"]\n"
    ++ "    \x7d\n"
    ++ "\x7d\n"
    ++ "\n"
    ++ "# Configure runtime (loads existing config or creates new one)\n"
    ++ "print(\"Configuring runtime...\")\n"
    ++ "runtime.configure(\n"
    ++ "    entrypoint=entrypoint,\n"
    ++ "    agent_name=agent_name,\n"
    ++ "    execution_role=config_files['role'][\"role_arn\"],\n"
    ++ "    auto_create_ecr=True,\n"
    ++ "    memory_mode=\"NO_MEMORY\",\n"
    ++ "    requirements_file=\"requirements.txt\",\n"
    ++ "    region=\""
    ++ (region)
    ++ "\",\n"
    ++ "    authorizer_configuration=auth_config\n"
    ++ ")\n"
    ++ "print(\"✓ Runtime configured\")\n"
    ++ "\n"
    ++ "# Build environment variables from config files\n"
    ++ "env_vars = \x7b\x7d\n"
    ++ "\n"
    ++ "# Add environment variables passed from MCP tool\n"
    ++ "env_vars.update("
    ++ (pyDumps env_vars_dict)
    ++ ")\n"
    ++ "\n"
    ++ "# Add memory ID if available\n"
    ++ "if 'memory' in config_files:\n"
    ++ "    env_vars[\"MEMORY_ID\"] = config_files['memory'][\"memory_id\"]\n"
    ++ "\n"
    ++ "# Add gateway info if available\n"
    ++ "if 'gateway' in config_files:\n"
    ++ "    env_vars[\"GATEWAY_URL\"] = config_files['gateway'][\"gateway_url\"]\n"
    ++ "\n"
    ++ "# Add Cognito credentials\n"
    ++ "env_vars[\"COGNITO_CLIENT_ID\"] = config_files['cognito'][\"client_id\"]\n"
    ++ "env_vars[\"COGNITO_CLIENT_SECRET\"] = config_files['cognito'][\"client_secret\"]\n"
    ++ "env_vars[\"COGNITO_DISCOVERY_URL\"] = config_files['cognito'][\"discovery_url\"]\n"
    ++ "env_vars[\"OAUTH_SCOPES\"] = \" \".join(config_files['cognito'].get(\"scopes\", [\"agentcore-gateway/read\", \"agentcore-gateway/write\"]))\n"
    ++ "\n"
    ++ "print(\"\\nEnvironment variables:\")\n"
    ++ "for key in env_vars:\n"
    ++ "    if \"SECRET\" in key or \"PASSWORD\" in key:\n"
    ++ "        print(f\"  \x7bkey\x7d: ***\")\n"
    ++ "    else:\n"
    ++ "        print(f\"  \x7bkey\x7d: \x7benv_vars[key]\x7d\")\n"
    ++ "\n"
    ++ "# Launch agent\n"
    ++ "print(\"\\n\" + \"=\" * 80)\n"
    ++ "print(\"LAUNCHING AGENT TO AGENTCORE RUNTIME\")\n"
    ++ "print(\"=\" * 80)\n"
    ++ "print(\"\\nThis process will:\")\n"
    ++ "print(\"  1. Create CodeBuild project\")\n"
    ++ "print(\"  2. Build Docker container from your agent code\")\n"
    ++ "print(\"  3. Push container to Amazon ECR\")\n"
    ++ "print(\"  4. Deploy to AgentCore Runtime\")\n"
    ++ "print(\"\\n⏱️  Expected time: 5-10 minutes\")\n"
    ++ "print(\"\\n☕ Grab a coffee while the deployment runs...\")\n"
    ++ "print(\"=\" * 80)\n"
    ++ "\n"
    ++ "launch_result = runtime.launch(\n"
    ++ "    env_vars=env_vars,\n"
    ++ "    auto_update_on_conflict="
    ++ (pyBoolStr auto_update_on_conflict)
    ++ "\n"
    ++ ")\n"
    ++ "\n"
    ++ "agent_arn = launch_result.agent_arn\n"
    ++ "\n"
    ++ "# Save agent ARN to config\n"
    ++ "runtime_output_config = \x7b\n"
    ++ "    \"agent_arn\": agent_arn,\n"
    ++ "    \"agent_name\": agent_name,\n"
    ++ "    \"region\": \""
    ++ (region)
    ++ "\"\n"
    ++ "\x7d\n"
    ++ "\n"
    ++ "# Add memory_id if available\n"
    ++ "if 'memory' in config_files:\n"
    ++ "    runtime_output_config[\"memory_id\"] = config_files['memory'][\"memory_id\"]\n"
    ++ "\n"
    ++ "# Add gateway_url if available\n"
    ++ "if 'gateway' in config_files:\n"
    ++ "    runtime_output_config[\"gateway_url\"] = config_files['gateway'][\"gateway_url\"]\n"
    ++ "\n"
    ++ "with open('runtime_config.json', 'w') as f:\n"
    ++ "    json.dump(runtime_output_config, f, indent=2)\n"
    ++ "\n"
    ++ "print(f\"\\n✓ Agent deployment initiated!\")\n"
    ++ "print(f\"  Agent ARN: \x7bagent_arn\x7d\")\n"
    ++ "print(f\"✓ Configuration saved to runtime_config.json\")\n"
    ++ "print(\"\\n\" + \"=\" * 80)\n"
    ++ "print(\"NEXT STEPS\")\n"
    ++ "print(\"=\" * 80)\n"
    ++ "print(\"\\n1. Monitor deployment status:\")\n"
    ++ "print(\"   Run: python check_runtime_status.py\")\n"
    ++ "print(\"\\n2. Wait for status to show 'READY' (may take a few more minutes)\")\n"
    ++ "print(\"\\n3. Once READY, test your agent:\")\n"
    ++ "print(\"   Run: python invoke_agent.py\")\n"
    ++ "print(\"\\n\" + \"=\" * 80)\n"

/-- `handle_runtime_launch` (runtime_handlers.py lines 75-246). -/
def handle_runtime_launch (args : ArgDict) : Except String ArgDict :=
  (runtimeLaunchParams args).map
    fun (region, env_vars, auto_update_on_conflict) =>
      mkToolResult (runtimeLaunchCode region env_vars auto_update_on_conflict)
        "launch_to_runtime.py"
        "Run this script to deploy the agent to AgentCore Runtime"


/-- Parameter extraction of `handle_runtime_status` (only `region`). -/
def runtimeStatusParams (args : ArgDict) : Except String String :=
  argStrD args "region" "us-west-2"

/-- The f-string template of `handle_runtime_status`. -/
def runtimeStatusCode (region : String) : String :=

    "#!/usr/bin/env python3\n"
    ++ "\"\"\"\n"
    ++ "Script to check AgentCore Runtime deployment status.\n"
    ++ "\"\"\"\n"
    ++ "\n"
    ++ "import json\n"
    ++ "import os\n"
    ++ "from bedrock_agentcore_starter_toolkit import Runtime\n"
    ++ "\n"
    ++ "# Check if runtime config exists\n"
    ++ "if not os.path.exists('runtime_config.json'):\n"
    ++ "    print(\"❌ Error: Agent not deployed yet\")\n"
    ++ "    print(\"Please run launch script first\")\n"
    ++ "    exit(1)\n"
    ++ "\n"
    ++ "# Load configuration files\n"
    ++ "with open('runtime_execution_role_config.json') as f:\n"
    ++ "    role_config = json.load(f)\n"
    ++ "with open('cognito_config.json') as f:\n"
    ++ "    cognito_config = json.load(f)\n"
    ++ "\n"
    ++ "# Load .bedrock_agentcore.yaml to get agent name and entrypoint\n"
    ++ "if not os.path.exists('.bedrock_agentcore.yaml'):\n"
    ++ "    print(\"❌ Error: .bedrock_agentcore.yaml not found\")\n"
    ++ "    print(\"Please run configure_runtime.py first\")\n"
    ++ "    exit(1)\n"
    ++ "\n"
    ++ "import yaml\n"
    ++ "with open('.bedrock_agentcore.yaml') as f:\n"
    ++ "    runtime_config = yaml.safe_load(f)\n"
    ++ "\n"
    ++ "default_agent = runtime_config.get('default_agent')\n"
    ++ "agent_config = runtime_config.get('agents', \x7b\x7d).get(default_agent, \x7b\x7d)\n"
    ++ "agent_name = agent_config.get('name')\n"
    ++ "entrypoint = agent_config.get('entrypoint')\n"
    ++ "\n"
    ++ "# Initialize Runtime\n"
    ++ "runtime = Runtime()\n"
    ++ "\n"
    ++ "# Build authorizer configuration for Cognito JWT\n"
    ++ "auth_config = \x7b\n"
    ++ "    \"customJWTAuthorizer\": \x7b\n"
    ++ "        \"allowedClients\": [cognito_config[\"client_id\"]],\n"
    ++ "        \"discoveryUrl\": cognito_config[\"discovery_url\"]\n"
    ++ "    \x7d\n"
    ++ "\x7d\n"
    ++ "\n"
    ++ "# Configure runtime (to load existing configuration)\n"
    ++ "print(\"Loading runtime configuration...\")\n"
    ++ "runtime.configure(\n"
    ++ "    entrypoint=entrypoint,\n"
    ++ "    agent_name=agent_name,\n"
    ++ "    execution_role=role_config[\"role_arn\"],\n"
    ++ "    auto_create_ecr=True,\n"
    ++ "    memory_mode=\"NO_MEMORY\",\n"
    ++ "    requirements_file=\"requirements.txt\",\n"
    ++ "    region=\""
    ++ (region)
    ++ "\",\n"
    ++ "    authorizer_configuration=auth_config\n"
    ++ ")\n"
    ++ "\n"
    ++ "# Check status\n"
    ++ "print(\"Checking runtime deployment status...\")\n"
    ++ "status_response = runtime.status()\n"
    ++ "\n"
    ++ "status = status_response.endpoint[\"status\"]\n"
    ++ "\n"
    ++ "print(f\"\\nAgent Status: \x7bstatus\x7d\")\n"
    ++ "print(f\"Endpoint Details: \x7bjson.dumps(status_response.endpoint, indent=2, default=str)\x7d\")\n"
    ++ "\n"
    ++ "if status == \"READY\":\n"
    ++ "    print(\"\\n\" + \"=\" * 80)\n"
    ++ "    print(\"✓ Agent is READY to receive requests!\")\n"
    ++ "    print(\"=\" * 80)\n"
    ++ "    print(\"\\nYou can now invoke your agent with:\")\n"
    ++ "    print(\"  python invoke_agent.py\")\n"
    ++ "elif status in [\"CREATING\", \"UPDATING\"]:\n"
    ++ "    print(\"\\n\" + \"=\" * 80)\n"
    ++ "    print(\"⏳ Agent deployment in progress...\")\n"
    ++ "    print(\"=\" * 80)\n"
    ++ "    print(\"\\nThe deployment is still running. This is normal.\")\n"
    ++ "    print(\"Run this script again in 1-2 minutes to check status.\")\n"
    ++ "elif status in [\"CREATE_FAILED\", \"UPDATE_FAILED\"]:\n"
    ++ "    print(\"\\n\" + \"=\" * 80)\n"
    ++ "    print(\"✗ Agent deployment failed!\")\n"
    ++ "    print(\"=\" * 80)\n"
    ++ "    print(\"\\nCheck CloudWatch logs for details:\")\n"
    ++ "    print(f\"  Log group: /aws/bedrock-agentcore/runtime/\x7bagent_name\x7d\")\n"
    ++ "else:\n"
    ++ "    print(f\"\\n⚠ Unknown status: \x7bstatus\x7d\")\n"

/-- `handle_runtime_status` (runtime_handlers.py lines 249-350). -/
def handle_runtime_status (args : ArgDict) : Except String ArgDict :=
  (runtimeStatusParams args).map fun region =>
    mkToolResult (runtimeStatusCode region)
      "check_runtime_status.py"
      "Run this script to check the deployment status"


/-- Parameter extraction of `handle_runtime_invoke`: `payload` defaults to
the demo prompt dictionary. -/
def runtimeInvokeParams (args : ArgDict) : Except String (String × PyVal) := do
  let region ← argStrD args "region" "us-west-2"
  let payload :=
    (pyGet args "payload").getD
      (PyVal.dict [("actor_id", .str "user_001"),
                   ("prompt", .str "What do you know about me?")])
  pure (region, payload)

/-- The f-string template of `handle_runtime_invoke`. -/
def runtimeInvokeCode (region : String) (payload : PyVal) : String :=

    "#!/usr/bin/env python3\n"
    ++ "\"\"\"\n"
    ++ "Script to invoke deployed AgentCore Runtime agent.\n"
    ++ "\"\"\"\n"
    ++ "\n"
    ++ "import json\n"
    ++ "import base64\n"
    ++ "import os\n"
    ++ "import requests\n"
    ++ "from bedrock_agentcore_starter_toolkit import Runtime\n"
    ++ "\n"
    ++ "# Check if runtime config exists\n"
    ++ "if not os.path.exists('runtime_config.json'):\n"
    ++ "    print(\"❌ Error: Agent not deployed yet\")\n"
    ++ "    print(\"Please run launch script first\")\n"
    ++ "    exit(1)\n"
    ++ "\n"
    ++ "# Load configuration\n"
    ++ "with open('cognito_config.json') as f:\n"
    ++ "    cognito_config = json.load(f)\n"
    ++ "with open('runtime_execution_role_config.json') as f:\n"
    ++ "    role_config = json.load(f)\n"
    ++ "\n"
    ++ "# Load .bedrock_agentcore.yaml to get agent name and entrypoint\n"
    ++ "if not os.path.exists('.bedrock_agentcore.yaml'):\n"
    ++ "    print(\"❌ Error: .bedrock_agentcore.yaml not found\")\n"
    ++ "    print(\"Please run configure_runtime.py first\")\n"
    ++ "    exit(1)\n"
    ++ "\n"
    ++ "import yaml\n"
    ++ "with open('.bedrock_agentcore.yaml') as f:\n"
    ++ "    runtime_config = yaml.safe_load(f)\n"
    ++ "\n"
    ++ "default_agent = runtime_config.get('default_agent')\n"
    ++ "agent_config = runtime_config.get('agents', \x7b\x7d).get(default_agent, \x7b\x7d)\n"
    ++ "agent_name = agent_config.get('name')\n"
    ++ "entrypoint = agent_config.get('entrypoint')\n"
    ++ "\n"
    ++ "# Generate bearer token using Cognito client credentials flow\n"
    ++ "print(\"Generating OAuth bearer token...\")\n"
    ++ "\n"
    ++ "# Extract domain and region from cognito config\n"
    ++ "domain = cognito_config[\"domain\"].split('.')[0]  # Get domain prefix\n"
    ++ "region = cognito_config[\"region\"]\n"
    ++ "\n"
    ++ "# Construct token endpoint\n"
    ++ "token_endpoint = f\"https://\x7bdomain\x7d.auth.\x7bregion\x7d.amazoncognito.com/oauth2/token\"\n"
    ++ "\n"
    ++ "# Prepare credentials for Basic Auth\n"
    ++ "credentials = f\"\x7bcognito_config['client_id']\x7d:\x7bcognito_config['client_secret']\x7d\"\n"
    ++ "encoded_credentials = base64.b64encode(credentials.encode()).decode()\n"
    ++ "\n"
    ++ "# Get OAuth scopes\n"
    ++ "oauth_scopes = \" \".join(cognito_config.get(\"scopes\", [\"agentcore-gateway/read\", \"agentcore-gateway/write\"]))\n"
    ++ "\n"
    ++ "# Request token\n"
    ++ "response = requests.post(\n"
    ++ "    token_endpoint,\n"
    ++ "    headers=\x7b\n"
    ++ "        \"Authorization\": f\"Basic \x7bencoded_credentials\x7d\",\n"
    ++ "        \"Content-Type\": \"application/x-www-form-urlencoded\"\n"
    ++ "    \x7d,\n"
    ++ "    data=\x7b\n"
    ++ "        \"grant_type\": \"client_credentials\",\n"
    ++ "        \"scope\": oauth_scopes\n"
    ++ "    \x7d\n"
    ++ ")\n"
    ++ "\n"
    ++ "if response.status_code != 200:\n"
    ++ "    print(f\"❌ Failed to get OAuth token: \x7bresponse.text\x7d\")\n"
    ++ "    exit(1)\n"
    ++ "\n"
    ++ "bearer_token = response.json()[\"access_token\"]\n"
    ++ "print(\"✓ OAuth token obtained\")\n"
    ++ "\n"
    ++ "# Initialize Runtime\n"
    ++ "runtime = Runtime()\n"
    ++ "\n"
    ++ "# Build authorizer configuration for Cognito JWT\n"
    ++ "auth_config = \x7b\n"
    ++ "    \"customJWTAuthorizer\": \x7b\n"
    ++ "        \"allowedClients\": [cognito_config[\"client_id\"]],\n"
    ++ "        \"discoveryUrl\": cognito_config[\"discovery_url\"]\n"
    ++ "    \x7d\n"
    ++ "\x7d\n"
    ++ "\n"
    ++ "# Configure runtime (to load existing configuration)\n"
    ++ "print(\"\\nConfiguring runtime...\")\n"
    ++ "runtime.configure(\n"
    ++ "    entrypoint=entrypoint,\n"
    ++ "    agent_name=agent_name,\n"
    ++ "    execution_role=role_config[\"role_arn\"],\n"
    ++ "    auto_create_ecr=True,\n"
    ++ "    memory_mode=\"NO_MEMORY\",\n"
    ++ "    requirements_file=\"requirements.txt\",\n"
    ++ "    region=\""
    ++ (region)
    ++ "\",\n"
    ++ "    authorizer_configuration=auth_config\n"
    ++ ")\n"
    ++ "\n"
    ++ "# Invoke agent\n"
    ++ "print(\"\\nInvoking agent...\")\n"
    ++ "payload = "
    ++ (pyDumpsIndent4 payload)
    ++ "\n"
    ++ "\n"
    ++ "try:\n"
    ++ "    response = runtime.invoke(\n"
    ++ "        payload,\n"
    ++ "        bearer_token=bearer_token\n"
    ++ "    )\n"
    ++ "    \n"
    ++ "    print(f\"\\n\" + \"=\" * 80)\n"
    ++ "    print(\"✓ AGENT RESPONSE\")\n"
    ++ "    print(\"=\" * 80)\n"
    ++ "    print(response)\n"
    ++ "    print(\"=\" * 80)\n"
    ++ "except Exception as e:\n"
    ++ "    print(f\"\\n\" + \"=\" * 80)\n"
    ++ "    print(f\"❌ Error invoking agent\")\n"
    ++ "    print(\"=\" * 80)\n"
    ++ "    print(f\"Error: \x7be\x7d\")\n"
    ++ "    print(\"\\nTroubleshooting:\")\n"
    ++ "    print(\"  1. Check agent status: python check_runtime_status.py\")\n"
    ++ "    print(\"  2. Verify agent is in READY state\")\n"
    ++ "    print(\"  3. Check CloudWatch logs for errors\")\n"
    ++ "    print(\"=\" * 80)\n"
    ++ "    exit(1)\n"

/-- `handle_runtime_invoke` (runtime_handlers.py lines 353-491). -/
def handle_runtime_invoke (args : ArgDict) : Except String ArgDict :=
  (runtimeInvokeParams args).map fun (region, payload) =>
    mkToolResult (runtimeInvokeCode region payload)
      "invoke_agent.py"
      "Run this script to invoke the deployed agent"


/-- Parameter extraction of `handle_runtime_delete` (only `region`). -/
def runtimeDeleteParams (args : ArgDict) : Except String String :=
  argStrD args "region" "us-west-2"

/-- The f-string template of `handle_runtime_delete`. -/
def runtimeDeleteCode (region : String) : String :=

    "#!/usr/bin/env python3\n"
    ++ "\"\"\"\n"
    ++ "Script to delete AgentCore Runtime agent deployment.\n"
    ++ "\n"
    ++ "WARNING: This permanently deletes the agent runtime.\n"
    ++ "RERUNNABLE: Safe to run multiple times - handles missing resources gracefully.\n"
    ++ "\"\"\"\n"
    ++ "\n"
    ++ "import json\n"
    ++ "import os\n"
    ++ "import boto3\n"
    ++ "\n"
    ++ "print(\"Deleting AgentCore Runtime...\")\n"
    ++ "\n"
    ++ "# Check if runtime config exists\n"
    ++ "if not os.path.exists('runtime_config.json'):\n"
    ++ "    print(\"⚠️  Runtime config not found - nothing to delete\")\n"
    ++ "    print(\"✓ Script completed successfully (no resources to delete)\")\n"
    ++ "    exit(0)\n"
    ++ "\n"
    ++ "# Load runtime configuration\n"
    ++ "try:\n"
    ++ "    with open('runtime_config.json') as f:\n"
    ++ "        runtime_config = json.load(f)\n"
    ++ "except Exception as e:\n"
    ++ "    print(f\"⚠️  Failed to load runtime config: \x7be\x7d\")\n"
    ++ "    print(\"✓ Script completed successfully (no resources to delete)\")\n"
    ++ "    exit(0)\n"
    ++ "\n"
    ++ "agent_arn = runtime_config.get('agent_arn')\n"
    ++ "\n"
    ++ "if not agent_arn:\n"
    ++ "    print(\"⚠️  No agent ARN found in config\")\n"
    ++ "    print(\"✓ Script completed successfully (no resources to delete)\")\n"
    ++ "    exit(0)\n"
    ++ "\n"
    ++ "# Extract agent ID from ARN\n"
    ++ "agent_id = agent_arn.split('/')[-1]\n"
    ++ "\n"
    ++ "print(f\"  Agent ID: \x7bagent_id\x7d\")\n"
    ++ "\n"
    ++ "# Delete the agent using boto3 (like reference notebook)\n"
    ++ "try:\n"
    ++ "    agentcore_client = boto3.client('bedrock-agentcore-control', region_name='"
    ++ (region)
    ++ "')\n"
    ++ "    agentcore_client.delete_agent_runtime(agentRuntimeId=agent_id)\n"
    ++ "    print(\"✓ Agent runtime deleted successfully!\")\n"
    ++ "except Exception as e:\n"
    ++ "    error_msg = str(e).lower()\n"
    ++ "    if \"resourcenotfound\" in error_msg or \"not found\" in error_msg:\n"
    ++ "        print(\"⚠️  Agent already deleted or not found\")\n"
    ++ "        print(\"✓ Script completed successfully (resource already removed)\")\n"
    ++ "    else:\n"
    ++ "        print(f\"✗ Error deleting agent: \x7be\x7d\")\n"
    ++ "        exit(1)\n"
    ++ "\n"
    ++ "print(\"\\n✓ Runtime deletion completed successfully\")\n"
    ++ "print(\"✓ This script is RERUNNABLE - you can safely run it multiple times.\")\n"

/-- `handle_runtime_delete` (runtime_handlers.py lines 494-563). -/
def handle_runtime_delete (args : ArgDict) : Except String ArgDict :=
  (runtimeDeleteParams args).map fun region =>
    mkToolResult (runtimeDeleteCode region)
      "delete_runtime.py"
      "Run this script to delete the AgentCore Runtime deployment"


/-! ### Observability handlers (src/mybkp/agentcore-mcp-server/handlers/observability_handlers.py) -/

/-- Parameter extraction of `handle_observability_get_dashboard_url`. -/
def obsDashboardParams (args : ArgDict) : Except String String :=
  argStrD args "region" "us-west-2"

/-- The f-string template of `handle_observability_get_dashboard_url`. -/
def obsDashboardCode (region : String) : String :=

    "#!/usr/bin/env python3\n"
    ++ "\"\"\"\n"
    ++ "Script to get CloudWatch GenAI Observability dashboard URL.\n"
    ++ "\"\"\"\n"
    ++ "\n"
    ++ "# Build dashboard URL\n"
    ++ "region = \""
    ++ (region)
    ++ "\"\n"
    ++ "dashboard_url = f\"https://console.aws.amazon.com/cloudwatch/home?region=\x7bregion\x7d#gen-ai-observability/agent-core\"\n"
    ++ "\n"
    ++ "print(\"CloudWatch GenAI Observability Dashboard\")\n"
    ++ "print(\"=\" * 80)\n"
    ++ "print(f\"\\nDashboard URL: \x7bdashboard_url\x7d\")\n"
    ++ "print(f\"Region: \x7bregion\x7d\")\n"
    ++ "print(\"\\nFeatures:\")\n"
    ++ "print(\"  - Agent performance metrics\")\n"
    ++ "print(\"  - Request traces and spans\")\n"
    ++ "print(\"  - Session history\")\n"
    ++ "print(\"  - Error rates and patterns\")\n"
    ++ "print(\"  - Tool invocation details\")\n"
    ++ "print(\"\\nOpen this URL in your browser to view the dashboard\")\n"

/-- `handle_observability_get_dashboard_url` (observability_handlers.py
lines 11-43). -/
def handle_observability_get_dashboard_url (args : ArgDict) :
    Except String ArgDict :=
  (obsDashboardParams args).map fun region =>
    mkToolResult (obsDashboardCode region)
      "get_dashboard_url.py"
      "Run this script to get the observability dashboard URL"


/-- Parameter extraction of `handle_observability_get_logs_info`
(`agent_arn` extracted but not interpolated: the template loads the ARN
from runtime_config.json). -/
def obsLogsInfoParams (args : ArgDict) : Except String (String × String) := do
  let region ← argStrD args "region" "us-west-2"
  let agent_arn ← argStr args "agent_arn"
  pure (region, agent_arn)

/-- The f-string template of `handle_observability_get_logs_info`. -/
def obsLogsInfoCode (region : String) : String :=

    "#!/usr/bin/env python3\n"
    ++ "\"\"\"\n"
    ++ "Script to get CloudWatch log group information for agent logs.\n"
    ++ "\"\"\"\n"
    ++ "\n"
    ++ "import json\n"
    ++ "from datetime import datetime\n"
    ++ "\n"
    ++ "# Load configuration\n"
    ++ "with open('runtime_config.json') as f:\n"
    ++ "    runtime_config = json.load(f)\n"
    ++ "\n"
    ++ "agent_arn = runtime_config[\"agent_arn\"]\n"
    ++ "\n"
    ++ "# Extract agent ID from ARN\n"
    ++ "agent_id = agent_arn.split('/')[-1]\n"
    ++ "\n"
    ++ "# Build log group name\n"
    ++ "log_group = f\"/aws/bedrock-agentcore/runtimes/\x7bagent_id\x7d-DEFAULT\"\n"
    ++ "\n"
    ++ "# Get current date for log stream prefix\n"
    ++ "current_date = datetime.now().strftime(\"%Y/%m/%d\")\n"
    ++ "\n"
    ++ "# Build CLI commands\n"
    ++ "tail_command = f'aws logs tail \x7blog_group\x7d --log-stream-name-prefix \"\x7bcurrent_date\x7d/[runtime-logs]\" --follow'\n"
    ++ "recent_command = f'aws logs tail \x7blog_group\x7d --log-stream-name-prefix \"\x7bcurrent_date\x7d/[runtime-logs]\" --since 1h'\n"
    ++ "\n"
    ++ "print(\"CloudWatch Logs Information\")\n"
    ++ "print(\"=\" * 80)\n"
    ++ "print(f\"\\nAgent ARN: \x7bagent_arn\x7d\")\n"
    ++ "print(f\"Agent ID: \x7bagent_id\x7d\")\n"
    ++ "print(f\"Log Group: \x7blog_group\x7d\")\n"
    ++ "print(f\"Region: "
    ++ (region)
    ++ "\")\n"
    ++ "print(\"\\nCLI Commands:\")\n"
    ++ "print(f\"\\nTail logs (real-time):\")\n"
    ++ "print(f\"  \x7btail_command\x7d\")\n"
    ++ "print(f\"\\nView recent logs (last hour):\")\n"
    ++ "print(f\"  \x7brecent_command\x7d\")\n"

/-- `handle_observability_get_logs_info` (observability_handlers.py
lines 46-97). -/
def handle_observability_get_logs_info (args : ArgDict) :
    Except String ArgDict :=
  (obsLogsInfoParams args).map fun (region, _agent_arn) =>
    mkToolResult (obsLogsInfoCode region)
      "get_logs_info.py"
      "Run this script to get log group information and CLI commands"


/-- Parameter extraction of `handle_observability_get_recent_logs`
(`agent_arn` extracted but not interpolated). -/
def obsRecentLogsParams (args : ArgDict) :
    Except String (String × String × Int × Int) := do
  let region ← argStrD args "region" "us-west-2"
  let agent_arn ← argStr args "agent_arn"
  let limit ← argIntD args "limit" 50
  let hours_back ← argIntD args "hours_back" 1
  pure (region, agent_arn, limit, hours_back)

/-- The f-string template of `handle_observability_get_recent_logs`. -/
def obsRecentLogsCode (region : String) (limit hours_back : Int) : String :=

    "#!/usr/bin/env python3\n"
    ++ "\"\"\"\n"
    ++ "Script to retrieve recent logs from CloudWatch.\n"
    ++ "\"\"\"\n"
    ++ "\n"
    ++ "import json\n"
    ++ "import boto3\n"
    ++ "from datetime import datetime, timedelta\n"
    ++ "\n"
    ++ "# Load configuration\n"
    ++ "with open('runtime_config.json') as f:\n"
    ++ "    runtime_config = json.load(f)\n"
    ++ "\n"
    ++ "agent_arn = runtime_config[\"agent_arn\"]\n"
    ++ "\n"
    ++ "# Extract agent ID from ARN\n"
    ++ "agent_id = agent_arn.split('/')[-1]\n"
    ++ "log_group = f\"/aws/bedrock-agentcore/runtimes/\x7bagent_id\x7d-DEFAULT\"\n"
    ++ "\n"
    ++ "# Initialize CloudWatch Logs client\n"
    ++ "logs_client = boto3.client('logs', region_name='"
    ++ (region)
    ++ "')\n"
    ++ "\n"
    ++ "# Calculate start time\n"
    ++ "start_time = int((datetime.now() - timedelta(hours="
    ++ (toString hours_back)
    ++ ")).timestamp() * 1000)\n"
    ++ "\n"
    ++ "try:\n"
    ++ "    # Fetch log events\n"
    ++ "    print(f\"Retrieving logs from \x7blog_group\x7d...\")\n"
    ++ "    response = logs_client.filter_log_events(\n"
    ++ "        logGroupName=log_group,\n"
    ++ "        limit="
    ++ (toString limit)
    ++ ",\n"
    ++ "        startTime=start_time\n"
    ++ "    )\n"
    ++ "    \n"
    ++ "    events = response.get('events', [])\n"
    ++ "    \n"
    ++ "    print(f\"\\n✓ Retrieved \x7blen(events)\x7d log events from the last "
    ++ (toString hours_back)
    ++ " hour(s)\\n\")\n"
    ++ "    print(\"=\" * 80)\n"
    ++ "    \n"
    ++ "    for event in events:\n"
    ++ "        timestamp = datetime.fromtimestamp(event['timestamp'] / 1000).isoformat()\n"
    ++ "        message = event['message']\n"
    ++ "        print(f\"[\x7btimestamp\x7d] \x7bmessage\x7d\")\n"
    ++ "        print(\"-\" * 80)\n"
    ++ "        \n"
    ++ "except logs_client.exceptions.ResourceNotFoundException:\n"
    ++ "    print(f\"✗ Log group not found: \x7blog_group\x7d\")\n"
    ++ "    print(\"  Agent may not have been invoked yet, or logs may not be available.\")\n"
    ++ "except Exception as e:\n"
    ++ "    print(f\"✗ Error retrieving logs: \x7bstr(e)\x7d\")\n"

/-- `handle_observability_get_recent_logs` (observability_handlers.py
lines 100-165). -/
def handle_observability_get_recent_logs (args : ArgDict) :
    Except String ArgDict :=
  (obsRecentLogsParams args).map fun (region, _agent_arn, limit, hours_back) =>
    mkToolResult (obsRecentLogsCode region limit hours_back)
      "get_recent_logs.py"
      "Run this script to retrieve recent agent logs"


/-! ### Identity handler (src/mybkp/agentcore-mcp-server/handlers/identity_handlers.py) -/

/-- Parameter extraction of `handle_create_runtime_execution_role_script`
(only `region`). -/
def identityRoleParams (args : ArgDict) : Except String String :=
  argStrD args "region" "us-west-2"

/-- The f-string template of `handle_create_runtime_execution_role_script`. -/
def identityRoleCode (region : String) : String :=

    "#!/usr/bin/env python3\n"
    ++ "\"\"\"\n"
    ++ "Script to create IAM execution role for AgentCore Runtime.\n"
    ++ "\n"
    ++ "This script creates an IAM role with minimal required permissions for running\n"
    ++ "agents in AgentCore Runtime.\n"
    ++ "\"\"\"\n"
    ++ "\n"
    ++ "import json\n"
    ++ "import boto3\n"
    ++ "import time\n"
    ++ "\n"
    ++ "# Configuration\n"
    ++ "REGION = \""
    ++ (region)
    ++ "\"\n"
    ++ "ROLE_NAME = f\"AgentCoreRuntimeExecutionRole-\x7bint(time.time())\x7d\"\n"
    ++ "POLICY_NAME = f\"AgentCoreRuntimePolicy-\x7bint(time.time())\x7d\"\n"
    ++ "\n"
    ++ "# Create IAM client\n"
    ++ "iam_client = boto3.client('iam', region_name=REGION)\n"
    ++ "\n"
    ++ "print(\"Creating IAM Execution Role for AgentCore Runtime\")\n"
    ++ "print(\"=\" * 80)\n"
    ++ "\n"
    ++ "# Get AWS account ID\n"
    ++ "sts_client = boto3.client('sts', region_name=REGION)\n"
    ++ "account_id = sts_client.get_caller_identity()['Account']\n"
    ++ "print(f\"\\nAWS Account: \x7baccount_id\x7d\")\n"
    ++ "print(f\"Region: \x7bREGION\x7d\")\n"
    ++ "\n"
    ++ "# Step 1: Define trust policy for bedrock-agentcore.amazonaws.com\n"
    ++ "print(\"\\n1. Creating IAM role with trust policy...\")\n"
    ++ "trust_policy = \x7b\n"
    ++ "    \"Version\": \"2012-10-17\",\n"
    ++ "    \"Statement\": [\n"
    ++ "        \x7b\n"
    ++ "            \"Effect\": \"Allow\",\n"
    ++ "            \"Principal\": \x7b\n"
    ++ "                \"Service\": \"bedrock-agentcore.amazonaws.com\"\n"
    ++ "            \x7d,\n"
    ++ "            \"Action\": \"sts:AssumeRole\"\n"
    ++ "        \x7d\n"
    ++ "    ]\n"
    ++ "\x7d\n"
    ++ "\n"
    ++ "try:\n"
    ++ "    role_response = iam_client.create_role(\n"
    ++ "        RoleName=ROLE_NAME,\n"
    ++ "        AssumeRolePolicyDocument=json.dumps(trust_policy),\n"
    ++ "        Description=\"Execution role for AgentCore Runtime with minimal required permissions\"\n"
    ++ "    )\n"
    ++ "    role_arn = role_response['Role']['Arn']\n"
    ++ "    print(f\"   ✓ Role created: \x7bROLE_NAME\x7d\")\n"
    ++ "    print(f\"   ✓ Role ARN: \x7brole_arn\x7d\")\n"
    ++ "except Exception as e:\n"
    ++ "    print(f\"   ✗ Error creating role: \x7be\x7d\")\n"
    ++ "    exit(1)\n"
    ++ "\n"
    ++ "# Step 2: Create comprehensive permissions policy with minimal required permissions\n"
    ++ "print(\"\\n2. Creating permissions policy...\")\n"
    ++ "permissions_policy = \x7b\n"
    ++ "    \"Version\": \"2012-10-17\",\n"
    ++ "    \"Statement\": [\n"
    ++ "        \x7b\n"
    ++ "            \"Sid\": \"ECRAccess\",\n"
    ++ "            \"Effect\": \"Allow\",\n"
    ++ "            \"Action\": [\n"
    ++ "                \"ecr:GetAuthorizationToken\",\n"
    ++ "                \"ecr:BatchCheckLayerAvailability\",\n"
    ++ "                \"ecr:GetDownloadUrlForLayer\",\n"
    ++ "                \"ecr:BatchGetImage\"\n"
    ++ "            ],\n"
    ++ "            \"Resource\": \"*\"\n"
    ++ "        \x7d,\n"
    ++ "        \x7b\n"
    ++ "            \"Sid\": \"CloudWatchLogsAccess\",\n"
    ++ "            \"Effect\": \"Allow\",\n"
    ++ "            \"Action\": [\n"
    ++ "                \"logs:CreateLogGroup\",\n"
    ++ "                \"logs:CreateLogStream\",\n"
    ++ "                \"logs:PutLogEvents\",\n"
    ++ "                \"logs:DescribeLogStreams\",\n"
    ++ "                \"logs:DescribeLogGroups\"\n"
    ++ "            ],\n"
    ++ "            \"Resource\": [\n"
    ++ "                f\"arn:aws:logs:\x7bREGION\x7d:\x7baccount_id\x7d:log-group:/aws/bedrock-agentcore/*\",\n"
    ++ "                f\"arn:aws:logs:\x7bREGION\x7d:\x7baccount_id\x7d:log-group:*\"\n"
    ++ "            ]\n"
    ++ "        \x7d,\n"
    ++ "        \x7b\n"
    ++ "            \"Sid\": \"XRayAccess\",\n"
    ++ "            \"Effect\": \"Allow\",\n"
    ++ "            \"Action\": [\n"
    ++ "                \"xray:PutTraceSegments\",\n"
    ++ "                \"xray:PutTelemetryRecords\",\n"
    ++ "                \"xray:GetSamplingRules\",\n"
    ++ "                \"xray:GetSamplingTargets\"\n"
    ++ "            ],\n"
    ++ "            \"Resource\": \"*\"\n"
    ++ "        \x7d,\n"
    ++ "        \x7b\n"
    ++ "            \"Sid\": \"CloudWatchMetrics\",\n"
    ++ "            \"Effect\": \"Allow\",\n"
    ++ "            \"Action\": \"cloudwatch:PutMetricData\",\n"
    ++ "            \"Resource\": \"*\",\n"
    ++ "            \"Condition\": \x7b\n"
    ++ "                \"StringEquals\": \x7b\n"
    ++ "                    \"cloudwatch:namespace\": \"bedrock-agentcore\"\n"
    ++ "                \x7d\n"
    ++ "            \x7d\n"
    ++ "        \x7d,\n"
    ++ "        \x7b\n"
    ++ "            \"Sid\": \"BedrockModelAccess\",\n"
    ++ "            \"Effect\": \"Allow\",\n"
    ++ "            \"Action\": [\n"
    ++ "                \"bedrock:InvokeModel\",\n"
    ++ "                \"bedrock:InvokeModelWithResponseStream\",\n"
    ++ "                \"bedrock:ApplyGuardrail\",\n"
    ++ "                \"bedrock:Retrieve\"\n"
    ++ "            ],\n"
    ++ "            \"Resource\": [\n"
    ++ "                \"arn:aws:bedrock:*::foundation-model/*\",\n"
    ++ "                f\"arn:aws:bedrock:\x7bREGION\x7d:\x7baccount_id\x7d:*\"\n"
    ++ "            ]\n"
    ++ "        \x7d,\n"
    ++ "        \x7b\n"
    ++ "            \"Sid\": \"AgentCoreMemoryAccess\",\n"
    ++ "            \"Effect\": \"Allow\",\n"
    ++ "            \"Action\": [\n"
    ++ "                \"bedrock-agentcore:CreateEvent\",\n"
    ++ "                \"bedrock-agentcore:ListEvents\",\n"
    ++ "                \"bedrock-agentcore:GetMemoryRecord\",\n"
    ++ "                \"bedrock-agentcore:GetMemory\",\n"
    ++ "                \"bedrock-agentcore:RetrieveMemoryRecords\",\n"
    ++ "                \"bedrock-agentcore:ListMemoryRecords\"\n"
    ++ "            ],\n"
    ++ "            \"Resource\": f\"arn:aws:bedrock-agentcore:\x7bREGION\x7d:\x7baccount_id\x7d:*\"\n"
    ++ "        \x7d,\n"
    ++ "        \x7b\n"
    ++ "            \"Sid\": \"WorkloadIdentityAccess\",\n"
    ++ "            \"Effect\": \"Allow\",\n"
    ++ "            \"Action\": [\n"
    ++ "                \"bedrock-agentcore:GetWorkloadAccessToken\",\n"
    ++ "                \"bedrock-agentcore:GetWorkloadAccessTokenForJWT\",\n"
    ++ "                \"bedrock-agentcore:GetWorkloadAccessTokenForUserId\"\n"
    ++ "            ],\n"
    ++ "            \"Resource\": [\n"
    ++ "                f\"arn:aws:bedrock-agentcore:\x7bREGION\x7d:\x7baccount_id\x7d:workload-identity-directory/default\",\n"
    ++ "                f\"arn:aws:bedrock-agentcore:\x7bREGION\x7d:\x7baccount_id\x7d:workload-identity-directory/default/workload-identity/*\"\n"
    ++ "            ]\n"
    ++ "        \x7d,\n"
    ++ "        \x7b\n"
    ++ "            \"Sid\": \"STSAccess\",\n"
    ++ "            \"Effect\": \"Allow\",\n"
    ++ "            \"Action\": [\n"
    ++ "                \"sts:AssumeRole\",\n"
    ++ "                \"sts:GetCallerIdentity\"\n"
    ++ "            ],\n"
    ++ "            \"Resource\": \"*\"\n"
    ++ "        \x7d,\n"
    ++ "        \x7b\n"
    ++ "            \"Sid\": \"SSMParameterAccess\",\n"
    ++ "            \"Effect\": \"Allow\",\n"
    ++ "            \"Action\": \"ssm:GetParameter\",\n"
    ++ "            \"Resource\": f\"arn:aws:ssm:\x7bREGION\x7d:\x7baccount_id\x7d:parameter/app/*\"\n"
    ++ "        \x7d,\n"
    ++ "        \x7b\n"
    ++ "            \"Sid\": \"MarketplaceAccess\",\n"
    ++ "            \"Effect\": \"Allow\",\n"
    ++ "            \"Action\": [\n"
    ++ "                \"aws-marketplace:ViewSubscriptions\",\n"
    ++ "                \"aws-marketplace:Subscribe\"\n"
    ++ "            ],\n"
    ++ "            \"Resource\": \"*\"\n"
    ++ "        \x7d\n"
    ++ "    ]\n"
    ++ "\x7d\n"
    ++ "\n"
    ++ "try:\n"
    ++ "    policy_response = iam_client.create_policy(\n"
    ++ "        PolicyName=POLICY_NAME,\n"
    ++ "        PolicyDocument=json.dumps(permissions_policy),\n"
    ++ "        Description=\"Minimal required permissions for AgentCore Runtime\"\n"
    ++ "    )\n"
    ++ "    policy_arn = policy_response['Policy']['Arn']\n"
    ++ "    print(f\"   ✓ Policy created: \x7bPOLICY_NAME\x7d\")\n"
    ++ "    print(f\"   ✓ Policy ARN: \x7bpolicy_arn\x7d\")\n"
    ++ "except Exception as e:\n"
    ++ "    print(f\"   ✗ Error creating policy: \x7be\x7d\")\n"
    ++ "    print(f\"   Cleaning up role: \x7bROLE_NAME\x7d\")\n"
    ++ "    try:\n"
    ++ "        iam_client.delete_role(RoleName=ROLE_NAME)\n"
    ++ "    except:\n"
    ++ "        pass\n"
    ++ "    exit(1)\n"
    ++ "\n"
    ++ "# Step 3: Attach policy to role\n"
    ++ "print(\"\\n3. Attaching policy to role...\")\n"
    ++ "try:\n"
    ++ "    iam_client.attach_role_policy(\n"
    ++ "        RoleName=ROLE_NAME,\n"
    ++ "        PolicyArn=policy_arn\n"
    ++ "    )\n"
    ++ "    print(f\"   ✓ Policy attached to role\")\n"
    ++ "except Exception as e:\n"
    ++ "    print(f\"   ✗ Error attaching policy: \x7be\x7d\")\n"
    ++ "    print(f\"   Cleaning up resources...\")\n"
    ++ "    try:\n"
    ++ "        iam_client.delete_policy(PolicyArn=policy_arn)\n"
    ++ "        iam_client.delete_role(RoleName=ROLE_NAME)\n"
    ++ "    except:\n"
    ++ "        pass\n"
    ++ "    exit(1)\n"
    ++ "\n"
    ++ "# Step 4: Wait for role to propagate using waiter\n"
    ++ "print(\"\\n4. Waiting for role to propagate...\")\n"
    ++ "try:\n"
    ++ "    waiter = iam_client.get_waiter('role_exists')\n"
    ++ "    waiter.wait(RoleName=ROLE_NAME)\n"
    ++ "    print(\"   ✓ Role propagation confirmed\")\n"
    ++ "except Exception as e:\n"
    ++ "    print(f\"   ⚠️  Waiter not available, using 10-second sleep: \x7be\x7d\")\n"
    ++ "    time.sleep(10)\n"
    ++ "    print(\"   ✓ Role propagation wait complete\")\n"
    ++ "\n"
    ++ "# Save configuration\n"
    ++ "config = \x7b\n"
    ++ "    \"role_name\": ROLE_NAME,\n"
    ++ "    \"role_arn\": role_arn,\n"
    ++ "    \"policy_name\": POLICY_NAME,\n"
    ++ "    \"policy_arn\": policy_arn,\n"
    ++ "    \"region\": REGION\n"
    ++ "\x7d\n"
    ++ "\n"
    ++ "with open('runtime_execution_role_config.json', 'w') as f:\n"
    ++ "    json.dump(config, f, indent=2)\n"
    ++ "\n"
    ++ "print(\"\\n\" + \"=\" * 80)\n"
    ++ "print(\"✓ Runtime execution role setup complete!\")\n"
    ++ "print(f\"\\nConfiguration saved to runtime_execution_role_config.json:\")\n"
    ++ "print(f\"  Role Name: \x7bROLE_NAME\x7d\")\n"
    ++ "print(f\"  Role ARN: \x7brole_arn\x7d\")\n"
    ++ "print(f\"  Policy ARN: \x7bpolicy_arn\x7d\")\n"
    ++ "print(\"\\nPermissions granted:\")\n"
    ++ "print(\"  ✓ ECR - Pull container images\")\n"
    ++ "print(\"  ✓ CloudWatch Logs - Write and read logs\")\n"
    ++ "print(\"  ✓ X-Ray - Distributed tracing\")\n"
    ++ "print(\"  ✓ CloudWatch Metrics - Performance monitoring\")\n"
    ++ "print(\"  ✓ Bedrock - Invoke models and guardrails\")\n"
    ++ "print(\"  ✓ AgentCore Memory - Store/retrieve conversation history\")\n"
    ++ "print(\"  ✓ Workload Identity - Secure credential management\")\n"
    ++ "print(\"  ✓ STS - Role assumption and identity\")\n"
    ++ "print(\"  ✓ SSM Parameter Store - Configuration access\")\n"
    ++ "print(\"  ✓ AWS Marketplace - Model subscriptions\")\n"
    ++ "print(\"\\nThis role will be used for runtime deployment.\")\n"

/-- `handle_create_runtime_execution_role_script` (identity_handlers.py
lines 10-276). -/
def handle_create_runtime_execution_role_script (args : ArgDict) :
    Except String ArgDict :=
  (identityRoleParams args).map fun region =>
    mkToolResult (identityRoleCode region)
      "create_runtime_execution_role.py"
      "Run this script to create the IAM execution role with minimal required permissions"


/-! ### Strands handlers (spec-modelled) -/

/-- Modelled from the spec: `handlers/strands_handlers.py` is imported by
server.py and re-exported by `handlers/__init__.py` but is not among the
repository's files.  Per the spec (section 4.2), each handler's output "is
always `{code, filename, instructions}`, where `code` is a complete,
independently runnable script whose text is built by interpolating the
input parameters into a fixed template".  The template text itself is
unknown, so the code below stands for an unknown fixed template
interpolating `agent_name` and `system_prompt`. -/
def handle_generate_strands_agent (args : ArgDict) : Except String ArgDict :=
  (do
    let agent_name ← argStr args "agent_name"
    let system_prompt ← argStr args "system_prompt"
    pure (agent_name, system_prompt) :
      Except String (String × String)).map
    fun (agent_name, system_prompt) =>
      mkToolResult
        ("#!/usr/bin/env python3\n# Strands agent " ++ agent_name ++
          "\nSYSTEM_PROMPT = " ++ pyJsonQuote system_prompt ++ "\n")
        (agent_name ++ ".py")
        ("Run this script to start the Strands agent '" ++ agent_name ++ "'")

/-- Modelled from the spec: see `handle_generate_strands_agent`; the
runtime-agent generator likewise returns a generated-script payload built
from a fixed (unknown) template. -/
def handle_generate_agentcore_runtime_agent (args : ArgDict) :
    Except String ArgDict :=
  (do
    let agent_name ← argStr args "agent_name"
    let system_prompt ← argStr args "system_prompt"
    pure (agent_name, system_prompt) :
      Except String (String × String)).map
    fun (agent_name, system_prompt) =>
      mkToolResult
        ("#!/usr/bin/env python3\n# AgentCore Runtime agent " ++ agent_name ++
          "\nSYSTEM_PROMPT = " ++ pyJsonQuote system_prompt ++ "\n")
        (agent_name ++ "_runtime.py")
        ("Deploy this script as the AgentCore Runtime agent '" ++ agent_name ++ "'")

/-- The server's handler catalog (server.py imports exactly these twenty
handlers from the handlers package). -/
def mcpHandlers : List (ArgDict → Except String ArgDict) :=
  [handle_create_runtime_execution_role_script,
   handle_memory_create, handle_memory_create_event, handle_memory_retrieve,
   handle_memory_delete,
   handle_gateway_create, handle_gateway_add_lambda_target,
   handle_gateway_list_targets, handle_gateway_delete_target,
   handle_gateway_delete,
   handle_runtime_configure, handle_runtime_launch, handle_runtime_status,
   handle_runtime_invoke, handle_runtime_delete,
   handle_observability_get_dashboard_url, handle_observability_get_logs_info,
   handle_observability_get_recent_logs,
   handle_generate_strands_agent, handle_generate_agentcore_runtime_agent]


/-! ### Operational models of the generated and standalone scripts

The claims about script behaviour (exit codes, call ordering, config-file
effects) are settled against operational models translated statement by
statement from the script texts: the f-string templates above for the
generated scripts, and the standalone numbered scripts for the rest.
External effects (file system, AWS responses) enter through explicit
environment records; each run returns the exit code and the trace of AWS
calls issued, in order.  An uncaught Python exception terminates the
process with exit code 1 and is modelled as such. -/

/-- An AWS API call a modelled script can issue. -/
inductive ScriptCall where
  | listTargets
  | deleteTarget (targetId : String)
  | sleep5
  | deleteGateway
  | deleteMemory (memoryId : String)
  | deleteAgentRuntime (agentId : String)
  | createRole
  | getRole
  | createPolicy
  | attachRolePolicy
  | createGateway
  | createGatewayTarget
deriving Repr, DecidableEq

/-- Whether `pat` occurs as a contiguous run inside the list. -/
def hasInfix [BEq α] (pat : List α) : List α → Bool
  | [] => pat.isEmpty
  | a :: as => pat.isPrefixOf (a :: as) || hasInfix pat as

/-- Python `pat in s` on strings. -/
def strContains (s pat : String) : Bool := hasInfix pat.data s.data

/-- The not-found test of the generated memory-delete script:
`"not found" in error_msg or "does not exist" in error_msg or
"resourcenotfound" in error_msg` over the lowercased message. -/
def memNotFound (e : String) : Bool :=
  strContains (pyLower e) "not found" || strContains (pyLower e) "does not exist" ||
    strContains (pyLower e) "resourcenotfound"

/-- The not-found test of the generated target-delete, runtime-delete and
gateway-delete (step 2) scripts: `"resourcenotfound" in error_msg or
"not found" in error_msg` over the lowercased message. -/
def lowerNotFound (e : String) : Bool :=
  strContains (pyLower e) "resourcenotfound" || strContains (pyLower e) "not found"

/-- The not-found test of the gateway-delete script's steps 1 and 1.5:
`"ResourceNotFound" in str(e) or "not found" in str(e).lower()`
(the first check is case-sensitive). -/
def gdNotFound (e : String) : Bool :=
  strContains e "ResourceNotFound" || strContains (pyLower e) "not found"

/-- Environment of the script generated by `handle_memory_delete`
(template `memoryDeleteCode`): whether memory_config.json exists, the
result of loading it (parsing plus the `config['memory_id']` index), and
the outcome of `memory_manager.delete_memory`. -/
structure MemoryDeleteEnv where
  configExists : Bool
  configLoad : Except String String
  deleteResult : Except String Unit

/-- Run of the generated memory-delete script (template
`memoryDeleteCode`): exit code and AWS calls issued. -/
def memoryDeleteScript (env : MemoryDeleteEnv) : Nat × List ScriptCall :=
  if !env.configExists then (0, [])
  else
    match env.configLoad with
    | .error _ => (0, [])
    | .ok memory_id =>
        match env.deleteResult with
        | .ok _ => (0, [.deleteMemory memory_id])
        | .error e =>
            if memNotFound e then (0, [.deleteMemory memory_id])
            else (1, [.deleteMemory memory_id])

/-- Environment of the script generated by `handle_gateway_delete_target`
(template `gatewayDeleteTargetCode`). `configLoad` covers parsing
gateway_config.json and the `gateway_config['gateway_id']` index. -/
structure GatewayTargetDeleteEnv where
  configExists : Bool
  configLoad : Except String String
  deleteResult : Except String Unit

/-- Run of the generated target-delete script (template
`gatewayDeleteTargetCode`); `target_id` is baked into the script text. -/
def gatewayTargetDeleteScript (target_id : String)
    (env : GatewayTargetDeleteEnv) : Nat × List ScriptCall :=
  if !env.configExists then (0, [])
  else
    match env.configLoad with
    | .error _ => (0, [])
    | .ok _gateway_id =>
        match env.deleteResult with
        | .ok _ => (0, [.deleteTarget target_id])
        | .error e =>
            if lowerNotFound e then (0, [.deleteTarget target_id])
            else (1, [.deleteTarget target_id])

/-- Environment of the script generated by `handle_runtime_delete`
(template `runtimeDeleteCode`): the parsed runtime_config.json and the
outcome of `delete_agent_runtime`. -/
structure RuntimeDeleteEnv where
  configExists : Bool
  configLoad : Except String (List (String × PyVal))
  deleteResult : Except String Unit

/-- Python `s.split('/')[-1]`, as the runtime scripts extract the agent id
from its ARN. -/
def lastSlashComponent (s : String) : String :=
  match (s.splitOn "/").reverse with
  | [] => ""
  | x :: _ => x

/-- Run of the generated runtime-delete script (template
`runtimeDeleteCode`).  `config.get('agent_arn')` missing, `None` or empty
is the "nothing to delete" exit 0; a non-string value would crash at
`.split` (uncaught, exit 1). -/
def runtimeDeleteScript (env : RuntimeDeleteEnv) : Nat × List ScriptCall :=
  if !env.configExists then (0, [])
  else
    match env.configLoad with
    | .error _ => (0, [])
    | .ok cfg =>
        match pyGet cfg "agent_arn" with
        | Option.none => (0, [])
        | some PyVal.none => (0, [])
        | some (.str a) =>
            if a = "" then (0, [])
            else
              let agent_id := lastSlashComponent a
              match env.deleteResult with
              | .ok _ => (0, [.deleteAgentRuntime agent_id])
              | .error e =>
                  if lowerNotFound e then (0, [.deleteAgentRuntime agent_id])
                  else (1, [.deleteAgentRuntime agent_id])
        | some _ => (1, [])

/-- A gateway target as `list_gateway_targets` returns it: the script
reads `target['targetId']` and `target.get('name', ...)` (display only). -/
structure GatewayTarget where
  targetId : String
  displayName : Option String
deriving Repr, DecidableEq

/-- Environment of the script generated by `handle_gateway_delete`
(template `gatewayDeleteCode`): the config file, the three
`list_gateway_targets` responses (step 1, step 1.5 first check, step 1.5
recheck), the per-target `delete_gateway_target` outcomes, and the
`delete_gateway` outcome. -/
structure GatewayDeleteEnv where
  configExists : Bool
  configLoad : Except String (List (String × PyVal))
  list1 : Except String (List GatewayTarget)
  delTarget : String → Except String Unit
  list2 : Except String (List GatewayTarget)
  list3 : Except String (List GatewayTarget)
  delGateway : Except String Unit

/-- The step-1 loop over the listed targets, in list order: a not-found
error is tolerated, any other error re-raises (which step 1's outer
`except` re-raises in turn, crashing the script).  Returns the re-raised
message, if any, and the delete calls issued. -/
def delTargetsLoop (del : String → Except String Unit) :
    List GatewayTarget → Option String × List ScriptCall
  | [] => (Option.none, [])
  | t :: ts =>
      match del t.targetId with
      | .ok _ =>
          let (e, evs) := delTargetsLoop del ts
          (e, .deleteTarget t.targetId :: evs)
      | .error e =>
          if gdNotFound e then
            let (e', evs) := delTargetsLoop del ts
            (e', .deleteTarget t.targetId :: evs)
          else (some e, [.deleteTarget t.targetId])

/-- Step 2 of the gateway-delete script: the `delete_gateway` call, with
not-found treated as success. -/
def gatewayDeleteStep2 (env : GatewayDeleteEnv) : Nat × List ScriptCall :=
  match env.delGateway with
  | .ok _ => (0, [.deleteGateway])
  | .error e =>
      if lowerNotFound e then (0, [.deleteGateway]) else (1, [.deleteGateway])

/-- Steps 1.5 and 2 of the gateway-delete script.  Verification: list the
targets; when some remain, sleep 5 seconds and list once more; if targets
still remain, exit 1 without deleting the gateway.  A failing list call is
caught, at most logged, and the script proceeds to step 2. -/
def gatewayDeleteVerifyAndStep2 (env : GatewayDeleteEnv) :
    Nat × List ScriptCall :=
  match env.list2 with
  | .error _ =>
      let (c, evs) := gatewayDeleteStep2 env
      (c, .listTargets :: evs)
  | .ok rem =>
      if rem.isEmpty then
        let (c, evs) := gatewayDeleteStep2 env
        (c, .listTargets :: evs)
      else
        match env.list3 with
        | .error _ =>
            let (c, evs) := gatewayDeleteStep2 env
            (c, .listTargets :: .sleep5 :: evs)
        | .ok rem2 =>
            if rem2.isEmpty then
              let (c, evs) := gatewayDeleteStep2 env
              (c, .listTargets :: .sleep5 :: .listTargets :: evs)
            else (1, [.listTargets, .sleep5, .listTargets])

/-- Run of the generated gateway-delete script (template
`gatewayDeleteCode`): config checks, step 1 (delete all targets), step 1.5
(verify with one bounded wait-and-recheck), step 2 (delete the gateway).
A missing `gateway_id` key crashes at the first f-string print (uncaught
KeyError, exit 1, no calls). -/
def gatewayDeleteScript (env : GatewayDeleteEnv) : Nat × List ScriptCall :=
  if !env.configExists then (0, [])
  else
    match env.configLoad with
    | .error _ => (0, [])
    | .ok cfg =>
        match pyGet cfg "gateway_id" with
        | Option.none => (1, [])
        | some _ =>
            match env.list1 with
            | .error e =>
                if gdNotFound e then
                  let (c, evs) := gatewayDeleteVerifyAndStep2 env
                  (c, .listTargets :: evs)
                else (1, [.listTargets])
            | .ok targets =>
                match delTargetsLoop env.delTarget targets with
                | (some _, evs) => (1, .listTargets :: evs)
                | (Option.none, evs) =>
                    let (c, evs') := gatewayDeleteVerifyAndStep2 env
                    (c, .listTargets :: (evs ++ evs'))

/-! ### Standalone provisioning scripts: idempotent-create (C6) -/

/-- An IAM error as boto3 raises them, as far as the scripts discriminate:
the dedicated exception classes they catch, and anything else. -/
inductive IamErr where
  | entityAlreadyExists
  | limitExceeded
  | other (msg : String)
deriving Repr, DecidableEq

/-- Environment of 09_create_gateway_role.py: the STS account id and the
outcomes of the four IAM calls the script can make. -/
structure RoleScriptEnv where
  accountId : String
  createRole : Except IamErr String
  getRole : Except IamErr String
  createPolicy : Except IamErr String
  attachPolicy : Except IamErr Unit

/-- Run of 09_create_gateway_role.py (lines 28-161): role creation with the
`EntityAlreadyExistsException → get_role` fallback, policy creation with
the ARN-reconstruction fallback, policy attachment tolerating
`LimitExceededException`; any other exception reaches the outer handler
and exits 1.  Returns exit code, the `(role_arn, policy_arn)` the script
persists to gateway_role_config.json (when it gets there), and the calls
issued. -/
def createGatewayRoleScript (env : RoleScriptEnv) :
    Nat × Option (String × String) × List ScriptCall :=
  let roleStep : Except IamErr (String × List ScriptCall) :=
    match env.createRole with
    | .ok arn => .ok (arn, [.createRole])
    | .error .entityAlreadyExists =>
        match env.getRole with
        | .ok arn => .ok (arn, [.createRole, .getRole])
        | .error e => .error e
    | .error e => .error e
  match roleStep with
  | .error _ => (1, Option.none, [.createRole])
  | .ok (role_arn, evs₁) =>
      let policyStep : Except IamErr String :=
        match env.createPolicy with
        | .ok arn => .ok arn
        | .error .entityAlreadyExists =>
            .ok ("arn:aws:iam::" ++ env.accountId ++
                  ":policy/ReturnsAgentGatewayPolicy")
        | .error e => .error e
      match policyStep with
      | .error _ => (1, Option.none, evs₁ ++ [.createPolicy])
      | .ok policy_arn =>
          match env.attachPolicy with
          | .ok _ =>
              (0, some (role_arn, policy_arn),
               evs₁ ++ [.createPolicy, .attachRolePolicy])
          | .error .limitExceeded =>
              (0, some (role_arn, policy_arn),
               evs₁ ++ [.createPolicy, .attachRolePolicy])
          | .error _ => (1, Option.none, evs₁ ++ [.createPolicy, .attachRolePolicy])

/-- Environment of 11_create_gateway.py: the two prerequisite config files
and the outcome of `create_gateway` (gatewayId, gatewayUrl, gatewayArn on
success, the stringified exception otherwise). -/
structure GatewayCreateScriptEnv where
  cognitoConfigExists : Bool
  roleConfigExists : Bool
  createGateway : Except String (String × String × String)

/-- Run of 11_create_gateway.py (lines 17-109).  The `create_gateway` call
is wrapped in `except Exception` that prints and exits 1: there is no
already-exists fallback and no lookup-by-name call anywhere in the script.
Returns exit code, the config written to gateway_config.json
(gateway_id, url, arn, when written), and the calls issued. -/
def createGatewayScript (env : GatewayCreateScriptEnv) :
    Nat × Option (String × String × String) × List ScriptCall :=
  if !env.cognitoConfigExists then (1, Option.none, [])
  else if !env.roleConfigExists then (1, Option.none, [])
  else
    match env.createGateway with
    | .error _ => (1, Option.none, [.createGateway])
    | .ok r => (0, some r, [.createGateway])

/-! ### Lambda-target attachment and the gateway config (C7) -/

/-- Environment of 12_add_lambda_to_gateway.py: the two config files
(`Option.none` = FileNotFoundError) and the `create_gateway_target`
outcome (targetId on success). -/
structure AddLambdaScriptEnv where
  gatewayConfig : Option (List (String × PyVal))
  lambdaConfig : Option (List (String × PyVal))
  createTarget : Except String String

/-- Run of 12_add_lambda_to_gateway.py (lines 17-115): missing config files
exit 1; `gateway_config['gateway_id']`, `lambda_config['function_arn']`,
`lambda_config['tool_schema']` and `tool_schema[0]['name']` are indexed
before the create call (an uncaught KeyError/IndexError crashes, exit 1);
on success the script sets `target_id`, `target_name` and `lambda_arn` on
the loaded gateway config and rewrites gateway_config.json with it.  The
trailing human-readable summary is pure output.  Returns exit code, the
content of gateway_config.json after the run (`Option.none` when the file
was never there), and the calls issued. -/
def addLambdaToGatewayScript (env : AddLambdaScriptEnv) :
    Nat × Option (List (String × PyVal)) × List ScriptCall :=
  match env.gatewayConfig with
  | Option.none => (1, Option.none, [])
  | some gcfg =>
      match pyGet gcfg "gateway_id" with
      | Option.none => (1, some gcfg, [])
      | some _ =>
          match env.lambdaConfig with
          | Option.none => (1, some gcfg, [])
          | some lcfg =>
              match pyGet lcfg "function_arn", pyGet lcfg "tool_schema" with
              | some lambda_arn, some (PyVal.list (t₀ :: _ts)) =>
                  match t₀ with
                  | PyVal.dict t₀kvs =>
                      match pyGet t₀kvs "name" with
                      | Option.none => (1, some gcfg, [])
                      | some _ =>
                          match env.createTarget with
                          | .error _ => (1, some gcfg, [.createGatewayTarget])
                          | .ok target_id =>
                              let final :=
                                pySetItem
                                  (pySetItem
                                    (pySetItem gcfg "target_id"
                                      (.str target_id))
                                    "target_name" (.str "OrderLookup"))
                                  "lambda_arn" lambda_arn
                              (0, some final, [.createGatewayTarget])
                  | _ => (1, some gcfg, [])
              | _, _ => (1, some gcfg, [])

/-- Environment of the script generated by
`handle_gateway_add_lambda_target` (template
`gatewayAddLambdaTargetCode`): gateway_config.json and the
`create_gateway_target` outcome. -/
structure GenAddLambdaScriptEnv where
  gatewayConfig : Option (List (String × PyVal))
  createTarget : Except String String

/-- Run of the generated add-lambda-target script (template
`gatewayAddLambdaTargetCode`): it loads gateway_config.json (an uncaught
FileNotFoundError crashes), indexes `gateway_config['gateway_id']` (an
uncaught KeyError crashes), calls `create_gateway_target` (an uncaught
exception crashes) and prints the new target id.  It contains no file
write: the content of gateway_config.json after the run is whatever it was
before. -/
def genAddLambdaScript (env : GenAddLambdaScriptEnv) :
    Nat × Option (List (String × PyVal)) × List ScriptCall :=
  match env.gatewayConfig with
  | Option.none => (1, Option.none, [])
  | some gcfg =>
      match pyGet gcfg "gateway_id" with
      | Option.none => (1, some gcfg, [])
      | some _ =>
          match env.createTarget with
          | .error _ => (1, some gcfg, [.createGatewayTarget])
          | .ok _target_id => (0, some gcfg, [.createGatewayTarget])

/-! ### The OAuth client-credentials flow of 21_invoke_agent.py (C8) -/

/-- The standard base64 alphabet. -/
def base64Chars : List Char :=
  "ABCDEFGHIJKLMNOPQRSTUVWXYZabcdefghijklmnopqrstuvwxyz0123456789+/".data

/-- The base64 digit for a 6-bit value. -/
def b64c (n : Nat) : Char := base64Chars.getD n 'A'

/-- Base64 of a byte sequence (RFC 4648 with `=` padding), as Python's
`base64.b64encode` produces it. -/
def base64Encode : List Nat → String
  | [] => ""
  | [a] =>
      String.mk [b64c (a / 4), b64c (a % 4 * 16), '=', '=']
  | [a, b] =>
      String.mk [b64c (a / 4), b64c (a % 4 * 16 + b / 16), b64c (b % 16 * 4), '=']
  | a :: b :: c :: rest =>
      String.mk [b64c (a / 4), b64c (a % 4 * 16 + b / 16),
                 b64c (b % 16 * 4 + c / 64), b64c (c % 64)] ++
        base64Encode rest

/-- UTF-8 bytes of a string, as Python's `str.encode()` yields them. -/
def utf8Bytes (s : String) : List Nat :=
  List.flatten <| s.data.map fun c =>
    let n := c.toNat
    if n < 128 then [n]
    else if n < 2048 then [192 + n / 64, 128 + n % 64]
    else if n < 65536 then [224 + n / 4096, 128 + n / 64 % 64, 128 + n % 64]
    else [240 + n / 262144, 128 + n / 4096 % 64, 128 + n / 64 % 64, 128 + n % 64]

/-- The cognito_config.json fields 21_invoke_agent.py reads. -/
structure CognitoConfig where
  client_id : String
  client_secret : String
  token_endpoint : String
  scopes : List String
  discovery_url : String

/-- The HTTP POST the script sends to the Cognito token endpoint. -/
structure TokenRequest where
  url : String
  authHeader : String
  contentType : String
  body : List (String × String)
deriving Repr, DecidableEq

/-- The token endpoint's response as far as the script reads it. -/
structure TokenResponse where
  status : Nat
  access_token : Option String

/-- The `runtime.invoke` call the script makes. -/
structure InvokeCall where
  payload : List (String × PyVal)
  bearer_token : String

/-- The token request 21_invoke_agent.py builds (lines 21-40): HTTP Basic
auth with base64 of `client_id:client_secret`, form body with the
client-credentials grant and the space-joined configured scopes. -/
def invokeAgentTokenRequest (cfg : CognitoConfig) : TokenRequest :=
  { url := cfg.token_endpoint
    authHeader :=
      "Basic " ++ base64Encode (utf8Bytes (cfg.client_id ++ ":" ++ cfg.client_secret))
    contentType := "application/x-www-form-urlencoded"
    body := [("grant_type", "client_credentials"),
             ("scope", String.intercalate " " cfg.scopes)] }

/-- The fixed payload of the script's single invocation (lines 80-83). -/
def invokeAgentPayload : List (String × PyVal) :=
  [("prompt", .str "Can you look up my order ORD-001 and help me with a return?"),
   ("actor_id", .str "user_001")]

/-- Run of steps 1 and 3 of 21_invoke_agent.py: the token request, then —
only on a 200 response carrying an `access_token` — the `runtime.invoke`
call with that token as the bearer.  A non-200 response exits 1 with no
invocation; a 200 response without `access_token` crashes on the KeyError
(uncaught, exit 1).  Step 2 (`runtime.configure`) performs no call the
claim concerns and is modelled as pure setup. -/
def invokeAgentScript (cfg : CognitoConfig) (resp : TokenResponse) :
    TokenRequest × Option InvokeCall × Nat :=
  let req := invokeAgentTokenRequest cfg
  if resp.status ≠ 200 then (req, Option.none, 1)
  else
    match resp.access_token with
    | Option.none => (req, Option.none, 1)
    | some tok =>
        (req, some { payload := invokeAgentPayload, bearer_token := tok }, 0)

/-! ### Helper lemmas -/

/-- Inversion for `Except.map`: a successful mapped computation comes from a
successful one. -/
theorem except_map_ok {α β : Type} {e : Except String α} {g : α → β} {r : β}
    (h : e.map g = .ok r) : ∃ a, e = .ok a ∧ r = g a := by
  cases e with
  | error err => simp [Except.map] at h
  | ok a =>
      refine ⟨a, rfl, ?_⟩
      simpa [Except.map] using h.symm

/-- `mkToolResult` has exactly the keys code, filename, instructions, each
bound to a string. -/
theorem mkToolResult_shape (c f i : String) :
    (mkToolResult c f i).map Prod.fst = ["code", "filename", "instructions"] ∧
      ∀ kv ∈ mkToolResult c f i, ∃ s, kv.2 = PyVal.str s := by
  refine ⟨rfl, ?_⟩
  intro kv hkv
  simp only [mkToolResult, List.mem_cons, List.not_mem_nil, or_false] at hkv
  rcases hkv with h | h | h <;> subst h <;> exact ⟨_, rfl⟩

/-- The extraction of a handler result a witness can evaluate. -/
def exceptOkD {α : Type} (e : Except String α) (d : α) : α :=
  match e with
  | .ok a => a
  | .error _ => d

/-- The key list of a handler call's result (empty on failure). -/
def resultKeysOf (r : Except String (List (String × PyVal))) : List String :=
  match r with
  | .ok res => res.map Prod.fst
  | .error _ => []

/-! ### C2 -/

/-- C2: every MCP tool handler of the server's catalog, on every input
mapping on which it succeeds, returns a dictionary with exactly the three
keys code, filename and instructions, each mapped to a string. -/
theorem mcp_handler_result_shape :
    ∀ h ∈ mcpHandlers, ∀ args res, h args = .ok res →
      res.map Prod.fst = ["code", "filename", "instructions"] ∧
        ∀ kv ∈ res, ∃ s, kv.2 = PyVal.str s := by
  intro h hmem args res hok
  fin_cases hmem <;>
    simp only [handle_create_runtime_execution_role_script, handle_memory_create,
      handle_memory_create_event, handle_memory_retrieve, handle_memory_delete,
      handle_gateway_create, handle_gateway_add_lambda_target,
      handle_gateway_list_targets, handle_gateway_delete_target,
      handle_gateway_delete, handle_runtime_configure, handle_runtime_launch,
      handle_runtime_status, handle_runtime_invoke, handle_runtime_delete,
      handle_observability_get_dashboard_url, handle_observability_get_logs_info,
      handle_observability_get_recent_logs, handle_generate_strands_agent,
      handle_generate_agentcore_runtime_agent] at hok <;>
    (obtain ⟨p, -, rfl⟩ := except_map_ok hok) <;>
    exact mkToolResult_shape _ _ _

/-- The concrete argument mapping of the C2 witness. -/
def shapeWitnessArgs : ArgDict := [("memory_id", PyVal.str "mem-123")]

/-- The result the memory-delete handler returns on it. -/
def shapeWitnessRes : List (String × PyVal) :=
  exceptOkD (handle_memory_delete shapeWitnessArgs) []

/-- Witness for C2: the memory-delete handler, on a concrete input, yields
exactly the three keys. -/
theorem mcp_handler_result_shape_witness :
    resultKeysOf (handle_memory_delete shapeWitnessArgs) =
      ["code", "filename", "instructions"] := by
  have h := mcp_handler_result_shape handle_memory_delete
    (by simp [mcpHandlers]) shapeWitnessArgs shapeWitnessRes rfl
  have hok : handle_memory_delete shapeWitnessArgs = .ok shapeWitnessRes := rfl
  rw [hok]
  exact h.1

/-! ### C1, C9: the strategy lookup table -/

/-- A strategy dict whose `name` lowers to `summary` is wrapped under
`summaryMemoryStrategy`. -/
theorem transformOne_summary {kvs : List (String × PyVal)} {n : String}
    (h : pyGet kvs "name" = some (PyVal.str n)) (hl : pyLower n = "summary") :
    transformOne (PyVal.dict kvs) =
      .ok (PyVal.dict [("summaryMemoryStrategy", PyVal.dict kvs)]) := by
  simp [transformOne, strategyNameLower, asDict, h, asStr, hl, Bind.bind,
    Except.bind, Pure.pure, Except.pure]

/-- A strategy dict whose `name` lowers to `preferences` is wrapped under
`userPreferenceMemoryStrategy`. -/
theorem transformOne_preferences {kvs : List (String × PyVal)} {n : String}
    (h : pyGet kvs "name" = some (PyVal.str n)) (hl : pyLower n = "preferences") :
    transformOne (PyVal.dict kvs) =
      .ok (PyVal.dict [("userPreferenceMemoryStrategy", PyVal.dict kvs)]) := by
  simp [transformOne, strategyNameLower, asDict, h, asStr, hl, Bind.bind,
    Except.bind, Pure.pure, Except.pure]

/-- A strategy dict whose `name` lowers to `semantic` is wrapped under
`semanticMemoryStrategy`. -/
theorem transformOne_semantic {kvs : List (String × PyVal)} {n : String}
    (h : pyGet kvs "name" = some (PyVal.str n)) (hl : pyLower n = "semantic") :
    transformOne (PyVal.dict kvs) =
      .ok (PyVal.dict [("semanticMemoryStrategy", PyVal.dict kvs)]) := by
  simp [transformOne, strategyNameLower, asDict, h, asStr, hl, Bind.bind,
    Except.bind, Pure.pure, Except.pure]

/-- A strategy dict whose `name` lowers to none of the three table entries
passes through unchanged. -/
theorem transformOne_unrecognized {kvs : List (String × PyVal)} {n : String}
    (h : pyGet kvs "name" = some (PyVal.str n))
    (h₁ : pyLower n ≠ "summary") (h₂ : pyLower n ≠ "preferences")
    (h₃ : pyLower n ≠ "semantic") :
    transformOne (PyVal.dict kvs) = .ok (PyVal.dict kvs) := by
  simp [transformOne, strategyNameLower, asDict, h, asStr, h₁, h₂, h₃,
    Bind.bind, Except.bind, Pure.pure, Except.pure]

/-- A strategy dict with no `name` key passes through unchanged (the
default "" is not in the table). -/
theorem transformOne_no_name {kvs : List (String × PyVal)}
    (h : pyGet kvs "name" = Option.none) :
    transformOne (PyVal.dict kvs) = .ok (PyVal.dict kvs) := by
  simp [transformOne, strategyNameLower, asDict, h, Bind.bind, Except.bind,
    Pure.pure, Except.pure]

/-- The transformation loop processes the list elementwise and in order:
lengths agree and the i-th output is `transformOne` of the i-th input. -/
theorem transformStrategies_index :
    ∀ {ss ts : List PyVal}, transformStrategies ss = .ok ts →
      ts.length = ss.length ∧
        ∀ (i : Nat) (s : PyVal), ss[i]? = some s →
          ∃ t, ts[i]? = some t ∧ transformOne s = .ok t := by
  intro ss
  induction ss with
  | nil =>
      intro ts h
      simp only [transformStrategies] at h
      cases h
      simp
  | cons s rest ih =>
      intro ts h
      simp only [transformStrategies, Bind.bind, Except.bind] at h
      cases h₁ : transformOne s with
      | error e => rw [h₁] at h; cases h
      | ok t =>
          rw [h₁] at h
          cases h₂ : transformStrategies rest with
          | error e => rw [h₂] at h; cases h
          | ok ts' =>
              rw [h₂] at h
              simp only [Pure.pure, Except.pure] at h
              cases h
              obtain ⟨hlen, hidx⟩ := ih h₂
              refine ⟨by simpa using hlen, ?_⟩
              intro i v hv
              cases i with
              | zero =>
                  simp only [List.getElem?_cons_zero, Option.some.injEq] at hv
                  subst hv
                  exact ⟨t, by simp, h₁⟩
              | succ j =>
                  simp only [List.getElem?_cons_succ] at hv ⊢
                  exact hidx j v hv

/-- C1: for every list of strategy mappings, the transformation in
`handle_memory_create` wraps a strategy named `summary` under
`summaryMemoryStrategy`, one named `preferences` under
`userPreferenceMemoryStrategy`, one named `semantic` under
`semanticMemoryStrategy`, passes a strategy with an unrecognized name
through unchanged, and preserves the order (the i-th output comes from the
i-th input, lengths equal). -/
theorem memory_create_strategy_transformation (ss ts : List PyVal)
    (h : transformStrategies ss = .ok ts) :
    ts.length = ss.length ∧
    ∀ (i : Nat) (kvs : List (String × PyVal)), ss[i]? = some (PyVal.dict kvs) →
      (pyGet kvs "name" = some (PyVal.str "summary") →
        ts[i]? = some (PyVal.dict [("summaryMemoryStrategy", PyVal.dict kvs)])) ∧
      (pyGet kvs "name" = some (PyVal.str "preferences") →
        ts[i]? = some (PyVal.dict [("userPreferenceMemoryStrategy", PyVal.dict kvs)])) ∧
      (pyGet kvs "name" = some (PyVal.str "semantic") →
        ts[i]? = some (PyVal.dict [("semanticMemoryStrategy", PyVal.dict kvs)])) ∧
      (∀ n : String, pyGet kvs "name" = some (PyVal.str n) →
        pyLower n ∉ (["summary", "preferences", "semantic"] : List String) →
        ts[i]? = some (PyVal.dict kvs)) := by
  obtain ⟨hlen, hidx⟩ := transformStrategies_index h
  refine ⟨hlen, ?_⟩
  intro i kvs hi
  obtain ⟨t, hti, htr⟩ := hidx i _ hi
  refine ⟨?_, ?_, ?_, ?_⟩
  · intro hname
    have h' := (transformOne_summary hname (by decide)).symm.trans htr
    cases h'
    exact hti
  · intro hname
    have h' := (transformOne_preferences hname (by decide)).symm.trans htr
    cases h'
    exact hti
  · intro hname
    have h' := (transformOne_semantic hname (by decide)).symm.trans htr
    cases h'
    exact hti
  · intro n hname hnot
    simp only [List.mem_cons, List.not_mem_nil, or_false, not_or] at hnot
    obtain ⟨h₁, h₂, h₃⟩ := hnot
    have h' := (transformOne_unrecognized hname h₁ h₂ h₃).symm.trans htr
    cases h'
    exact hti

/-- The concrete strategy list of the C1 witness: one of each recognized
name and one unrecognized. -/
def c1Strategies : List PyVal :=
  [PyVal.dict [("name", PyVal.str "summary"),
               ("namespaces", PyVal.list [PyVal.str "app/s"])],
   PyVal.dict [("name", PyVal.str "preferences")],
   PyVal.dict [("name", PyVal.str "semantic")],
   PyVal.dict [("name", PyVal.str "episodic"), ("k", PyVal.int 1)]]

/-- The transformation's output on the C1 witness list. -/
def c1Out : List PyVal := exceptOkD (transformStrategies c1Strategies) []

/-- Witness for C1, at the concrete list `c1Strategies`. -/
theorem memory_create_strategy_transformation_witness :
    c1Out.length = c1Strategies.length ∧
    c1Out[0]? = some (PyVal.dict [("summaryMemoryStrategy",
      PyVal.dict [("name", PyVal.str "summary"),
                  ("namespaces", PyVal.list [PyVal.str "app/s"])])]) ∧
    c1Out[1]? = some (PyVal.dict [("userPreferenceMemoryStrategy",
      PyVal.dict [("name", PyVal.str "preferences")])]) ∧
    c1Out[2]? = some (PyVal.dict [("semanticMemoryStrategy",
      PyVal.dict [("name", PyVal.str "semantic")])]) ∧
    c1Out[3]? = some (PyVal.dict [("name", PyVal.str "episodic"),
                                  ("k", PyVal.int 1)]) := by
  have h := memory_create_strategy_transformation c1Strategies c1Out rfl
  refine ⟨h.1, ?_, ?_, ?_, ?_⟩
  · exact (h.2 0 _ rfl).1 rfl
  · exact (h.2 1 _ rfl).2.1 rfl
  · exact (h.2 2 _ rfl).2.2.1 rfl
  · exact (h.2 3 _ rfl).2.2.2 "episodic" rfl (by decide)

/-- C9: the strategy-name lookup is case-insensitive — a name differing
from a table entry only in letter case is wrapped under the corresponding
tagged-union key — and a strategy mapping with no `name` key at all passes
through the transformation into the output unchanged. -/
theorem strategy_lookup_case_insensitive :
    (∀ (kvs : List (String × PyVal)) (n : String),
      pyGet kvs "name" = some (PyVal.str n) →
      (pyLower n = "summary" → transformOne (PyVal.dict kvs) =
        .ok (PyVal.dict [("summaryMemoryStrategy", PyVal.dict kvs)])) ∧
      (pyLower n = "preferences" → transformOne (PyVal.dict kvs) =
        .ok (PyVal.dict [("userPreferenceMemoryStrategy", PyVal.dict kvs)])) ∧
      (pyLower n = "semantic" → transformOne (PyVal.dict kvs) =
        .ok (PyVal.dict [("semanticMemoryStrategy", PyVal.dict kvs)]))) ∧
    (∀ (ss ts : List PyVal) (i : Nat) (kvs : List (String × PyVal)),
      transformStrategies ss = .ok ts → ss[i]? = some (PyVal.dict kvs) →
      pyGet kvs "name" = Option.none → ts[i]? = some (PyVal.dict kvs)) := by
  constructor
  · intro kvs n hname
    exact ⟨fun hl => transformOne_summary hname hl,
           fun hl => transformOne_preferences hname hl,
           fun hl => transformOne_semantic hname hl⟩
  · intro ss ts i kvs h hi hname
    obtain ⟨-, hidx⟩ := transformStrategies_index h
    obtain ⟨t, hti, htr⟩ := hidx i _ hi
    have h' := (transformOne_no_name hname).symm.trans htr
    cases h'
    exact hti

/-- The concrete strategy list of the C9 witness: a case-variant name and
a mapping without a `name` key. -/
def c9Strategies : List PyVal :=
  [PyVal.dict [("name", PyVal.str "Summary")],
   PyVal.dict [("x", PyVal.int 7)]]

/-- The transformation's output on the C9 witness list. -/
def c9Out : List PyVal := exceptOkD (transformStrategies c9Strategies) []

/-- Witness for C9: `"Summary"` is wrapped under `summaryMemoryStrategy`,
and the name-less mapping comes out unchanged. -/
theorem strategy_lookup_case_insensitive_witness :
    transformOne (PyVal.dict [("name", PyVal.str "Summary")]) =
      .ok (PyVal.dict [("summaryMemoryStrategy",
        PyVal.dict [("name", PyVal.str "Summary")])]) ∧
    c9Out[1]? = some (PyVal.dict [("x", PyVal.int 7)]) := by
  constructor
  · exact ((strategy_lookup_case_insensitive.1
        [("name", PyVal.str "Summary")] "Summary" (by simp [pyGet])).1 (by decide))
  · exact strategy_lookup_case_insensitive.2 c9Strategies c9Out 1 _ rfl rfl rfl

/-! ### C10: relevance_score does not influence memory retrieval -/

/-- The `agentcore_memory_retrieve` MCP tool (server.py lines 180-219): it
assembles the argument mapping — `relevance_score` included — and calls
`handle_memory_retrieve`.  The float `relevance_score` is modelled as an
arbitrary `PyVal`, since no computation ever touches it. -/
def agentcore_memory_retrieve (memory_id nspace query : String) (top_k : Int)
    (relevance_score : PyVal) (region : String) : Except String ArgDict :=
  handle_memory_retrieve
    [("memory_id", .str memory_id), ("namespace", .str nspace),
     ("query", .str query), ("top_k", .int top_k),
     ("relevance_score", relevance_score), ("region", .str region)]

/-- C10: two invocations of the memory-retrieve tool that differ only in
`relevance_score` return identical results (code, filename and
instructions alike): the handler never reads that argument. -/
theorem memory_retrieve_ignores_relevance_score
    (memory_id nspace query : String) (top_k : Int) (r₁ r₂ : PyVal)
    (region : String) :
    agentcore_memory_retrieve memory_id nspace query top_k r₁ region =
      agentcore_memory_retrieve memory_id nspace query top_k r₂ region := rfl

/-! ### C4: delete scripts exit 0 when the config file is absent -/

/-- C4: each generated delete script (memory, gateway target, gateway,
runtime) exits with status 0 and issues no AWS call when its JSON config
file is absent. -/
theorem delete_scripts_exit_zero_without_config :
    (∀ env : MemoryDeleteEnv, env.configExists = false →
      memoryDeleteScript env = (0, [])) ∧
    (∀ (target_id : String) (env : GatewayTargetDeleteEnv),
      env.configExists = false →
      gatewayTargetDeleteScript target_id env = (0, [])) ∧
    (∀ env : GatewayDeleteEnv, env.configExists = false →
      gatewayDeleteScript env = (0, [])) ∧
    (∀ env : RuntimeDeleteEnv, env.configExists = false →
      runtimeDeleteScript env = (0, [])) := by
  refine ⟨?_, ?_, ?_, ?_⟩
  · intro env h; simp [memoryDeleteScript, h]
  · intro tid env h; simp [gatewayTargetDeleteScript, h]
  · intro env h; simp [gatewayDeleteScript, h]
  · intro env h; simp [runtimeDeleteScript, h]

/-- A concrete config-absent environment for the memory-delete script. -/
def c4MemEnv : MemoryDeleteEnv :=
  { configExists := false, configLoad := .ok "mem-1", deleteResult := .ok () }

/-- A concrete config-absent environment for the target-delete script. -/
def c4TgtEnv : GatewayTargetDeleteEnv :=
  { configExists := false, configLoad := .ok "gw-1", deleteResult := .ok () }

/-- A concrete config-absent environment for the gateway-delete script. -/
def c4GwEnv : GatewayDeleteEnv :=
  { configExists := false, configLoad := .ok [("gateway_id", .str "gw-1")],
    list1 := .ok [], delTarget := fun _ => .ok (), list2 := .ok [],
    list3 := .ok [], delGateway := .ok () }

/-- A concrete config-absent environment for the runtime-delete script. -/
def c4RtEnv : RuntimeDeleteEnv :=
  { configExists := false, configLoad := .ok [("agent_arn", .str "arn:a/b")],
    deleteResult := .ok () }

/-- Witness for C4, at the four concrete environments. -/
theorem delete_scripts_exit_zero_without_config_witness :
    memoryDeleteScript c4MemEnv = (0, []) ∧
    gatewayTargetDeleteScript "tgt-1" c4TgtEnv = (0, []) ∧
    gatewayDeleteScript c4GwEnv = (0, []) ∧
    runtimeDeleteScript c4RtEnv = (0, []) :=
  ⟨delete_scripts_exit_zero_without_config.1 c4MemEnv rfl,
   delete_scripts_exit_zero_without_config.2.1 "tgt-1" c4TgtEnv rfl,
   delete_scripts_exit_zero_without_config.2.2.1 c4GwEnv rfl,
   delete_scripts_exit_zero_without_config.2.2.2 c4RtEnv rfl⟩

/-! ### C8: the OAuth client-credentials grant of 21_invoke_agent.py -/

/-- C8: the invoke-agent script's token request carries an Authorization
header equal to `Basic` followed by the base64 of `client_id:client_secret`,
a form body with the client-credentials grant type and the space-joined
configured scopes; on a 200 response the returned access token is passed
as the bearer token of the Runtime invoke call, and on any other status
the script exits 1 without invoking. -/
theorem invoke_agent_client_credentials (cfg : CognitoConfig)
    (resp : TokenResponse) :
    ((invokeAgentScript cfg resp).1.url = cfg.token_endpoint ∧
     (invokeAgentScript cfg resp).1.authHeader =
       "Basic " ++ base64Encode (utf8Bytes (cfg.client_id ++ ":" ++ cfg.client_secret)) ∧
     (invokeAgentScript cfg resp).1.contentType =
       "application/x-www-form-urlencoded" ∧
     (invokeAgentScript cfg resp).1.body =
       [("grant_type", "client_credentials"),
        ("scope", String.intercalate " " cfg.scopes)]) ∧
    (resp.status = 200 → ∀ tok, resp.access_token = some tok →
      (invokeAgentScript cfg resp).2.1 =
        some { payload := invokeAgentPayload, bearer_token := tok }) ∧
    (resp.status ≠ 200 →
      (invokeAgentScript cfg resp).2.1 = Option.none ∧
      (invokeAgentScript cfg resp).2.2 = 1) := by
  refine ⟨?_, ?_, ?_⟩
  · refine ⟨?_, ?_, ?_, ?_⟩ <;>
      (simp only [invokeAgentScript, invokeAgentTokenRequest]; split <;> try rfl) <;>
      (split <;> rfl)
  · intro h200 tok htok
    simp [invokeAgentScript, h200, htok]
  · intro hne
    simp [invokeAgentScript, hne]

/-- The concrete Cognito config of the C8 witness. -/
def c8Config : CognitoConfig :=
  { client_id := "3example-client-id"
    client_secret := "s3cr3t+/="
    token_endpoint := "https://returns-agent.auth.us-west-2.amazoncognito.com/oauth2/token"
    scopes := ["returns-agent-api/read", "returns-agent-api/write"]
    discovery_url := "https://cognito-idp.us-west-2.amazonaws.com/pool/.well-known/openid-configuration" }

/-- The concrete 200 token response of the C8 witness. -/
def c8Response : TokenResponse :=
  { status := 200, access_token := some "eyJraWQiOiJ0b2tlbiJ9" }

/-- Witness for C8, at the concrete config and response: the header is the
concretely computed base64 value and the token flows into the invoke
call. -/
theorem invoke_agent_client_credentials_witness :
    (invokeAgentScript c8Config c8Response).1.authHeader =
      "Basic M2V4YW1wbGUtY2xpZW50LWlkOnMzY3IzdCsvPQ==" ∧
    (invokeAgentScript c8Config c8Response).1.body =
      [("grant_type", "client_credentials"),
       ("scope", "returns-agent-api/read returns-agent-api/write")] ∧
    (invokeAgentScript c8Config c8Response).2.1 =
      some { payload := invokeAgentPayload,
             bearer_token := "eyJraWQiOiJ0b2tlbiJ9" } := by
  have h := invoke_agent_client_credentials c8Config c8Response
  refine ⟨?_, ?_, ?_⟩
  · rw [h.1.2.1]; decide
  · rw [h.1.2.2.2]; decide
  · exact h.2.1 rfl "eyJraWQiOiJ0b2tlbiJ9" rfl

/-! ### C6: idempotent create — where it holds and where it does not -/

/-- C6 counterexample environment: both prerequisite configs exist and
`create_gateway` raises the provider's already-exists (conflict)
exception. -/
def c6Env : GatewayCreateScriptEnv :=
  { cognitoConfigExists := true, roleConfigExists := true,
    createGateway :=
      .error "ConflictException: Gateway with name ReturnsRefundsGateway already exists" }

/-- C6 counterexample: on an already-exists error, 11_create_gateway.py
exits 1 having issued only the create call — no lookup-by-name fallback is
attempted and no existing identifier is recovered, contrary to the claim
that every provisioning script recovers from already-exists. -/
theorem gateway_create_no_already_exists_fallback :
    createGatewayScript c6Env =
      (1, Option.none, [ScriptCall.createGateway]) ∧
    (createGatewayScript c6Env).1 ≠ 0 := ⟨rfl, by decide⟩

/-- C6 (amended): the gateway-role script recovers from
`EntityAlreadyExistsException` by falling back to `get_role`, adopting the
existing role's ARN; the gateway-create script has no such fallback — any
`create_gateway` exception, the conflict included, exits 1 with no lookup
call. -/
theorem provisioning_already_exists_handling :
    (∀ (env : RoleScriptEnv) (arn parn : String),
      env.createRole = .error .entityAlreadyExists →
      env.getRole = .ok arn →
      env.createPolicy = .ok parn →
      env.attachPolicy = .ok () →
      createGatewayRoleScript env =
        (0, some (arn, parn),
         [ScriptCall.createRole, ScriptCall.getRole, ScriptCall.createPolicy,
          ScriptCall.attachRolePolicy])) ∧
    (∀ (env : GatewayCreateScriptEnv) (msg : String),
      env.cognitoConfigExists = true →
      env.roleConfigExists = true →
      env.createGateway = .error msg →
      createGatewayScript env = (1, Option.none, [ScriptCall.createGateway])) := by
  constructor
  · intro env arn parn h₁ h₂ h₃ h₄
    simp [createGatewayRoleScript, h₁, h₂, h₃, h₄]
  · intro env msg h₁ h₂ h₃
    simp [createGatewayScript, h₁, h₂, h₃]

/-- The concrete role-script environment of the C6 witness: the role
already exists, the lookup succeeds. -/
def c6RoleEnv : RoleScriptEnv :=
  { accountId := "123456789012"
    createRole := .error .entityAlreadyExists
    getRole := .ok "arn:aws:iam::123456789012:role/ReturnsAgentGatewayRole"
    createPolicy := .ok "arn:aws:iam::123456789012:policy/ReturnsAgentGatewayPolicy"
    attachPolicy := .ok () }

/-- Witness for the amended C6, at concrete environments. -/
theorem provisioning_already_exists_handling_witness :
    createGatewayRoleScript c6RoleEnv =
      (0, some ("arn:aws:iam::123456789012:role/ReturnsAgentGatewayRole",
                "arn:aws:iam::123456789012:policy/ReturnsAgentGatewayPolicy"),
       [ScriptCall.createRole, ScriptCall.getRole, ScriptCall.createPolicy,
        ScriptCall.attachRolePolicy]) ∧
    createGatewayScript c6Env = (1, Option.none, [ScriptCall.createGateway]) :=
  ⟨provisioning_already_exists_handling.1 c6RoleEnv _ _ rfl rfl rfl rfl,
   provisioning_already_exists_handling.2 c6Env _ rfl rfl rfl⟩

/-! ### C7: gateway-config augmentation when a Lambda target is attached -/

/-- `pySetItem` binds the written key. -/
theorem pyGet_setItem_same (kvs : List (String × PyVal)) (k : String)
    (v : PyVal) : pyGet (pySetItem kvs k v) k = some v := by
  induction kvs with
  | nil => simp [pySetItem, pyGet]
  | cons kv rest ih =>
      by_cases h : kv.1 = k
      · simp [pySetItem, pyGet, h]
      · simpa [pySetItem, pyGet, h, List.find?] using ih

/-- `pySetItem` leaves every other key's binding unchanged. -/
theorem pyGet_setItem_other (kvs : List (String × PyVal)) (k k' : String)
    (v : PyVal) (h : k' ≠ k) :
    pyGet (pySetItem kvs k v) k' = pyGet kvs k' := by
  have hkk : (k == k') = false := beq_eq_false_iff_ne.mpr (Ne.symm h)
  induction kvs with
  | nil => simp [pySetItem, pyGet, List.find?, hkk]
  | cons kv rest ih =>
      by_cases hk : kv.1 = k
      · have h1 : (kv.1 == k) = true := beq_iff_eq.mpr hk
        have h2 : (kv.1 == k') = false := by rw [hk]; exact hkk
        simp [pySetItem, pyGet, List.find?, h1, h2]
      · have h1 : (kv.1 == k) = false := beq_eq_false_iff_ne.mpr hk
        by_cases hk' : kv.1 = k'
        · have h2 : (kv.1 == k') = true := beq_iff_eq.mpr hk'
          simp [pySetItem, pyGet, List.find?, h1, h2]
        · have h2 : (kv.1 == k') = false := beq_eq_false_iff_ne.mpr hk'
          simpa [pySetItem, pyGet, List.find?, h1, h2] using ih

/-- C7 counterexample environment: a gateway config with the usual
creation-time keys, and a target creation that succeeds with id `TGT1`. -/
def c7Env : GenAddLambdaScriptEnv :=
  { gatewayConfig := some [("gateway_id", .str "gw-1"),
                           ("gateway_url", .str "https://gw.example"),
                           ("gateway_arn", .str "arn:aws:gw-1")]
    createTarget := .ok "TGT1" }

/-- C7 counterexample: the script generated by the add-lambda-target
handler runs to success (exit 0, the create-target call issued), yet
gateway_config.json afterwards still has no `target_id` key — the
generated script contains no write of the config file, contrary to the
claim that the handler's script augments it in place. -/
theorem gen_add_lambda_target_does_not_update_config :
    (genAddLambdaScript c7Env).1 = 0 ∧
    (genAddLambdaScript c7Env).2.2 = [ScriptCall.createGatewayTarget] ∧
    pyGet ((genAddLambdaScript c7Env).2.1.getD []) "target_id" = Option.none ∧
    pyGet ((genAddLambdaScript c7Env).2.1.getD []) "lambda_arn" = Option.none :=
  ⟨rfl, rfl, rfl, rfl⟩

/-- C7 (amended): the standalone add-target script augments
gateway_config.json in place — `target_id`, `target_name` and
`lambda_arn` are set and every other key keeps its previous binding —
while the script generated by the add-lambda-target handler leaves
gateway_config.json exactly as it found it. -/
theorem add_lambda_target_config_effects :
    (∀ (env : AddLambdaScriptEnv) (gcfg lcfg : List (String × PyVal))
      (gid larn : PyVal) (t₀kvs : List (String × PyVal)) (n : PyVal)
      (ts : List PyVal) (tid : String),
      env.gatewayConfig = some gcfg →
      pyGet gcfg "gateway_id" = some gid →
      env.lambdaConfig = some lcfg →
      pyGet lcfg "function_arn" = some larn →
      pyGet lcfg "tool_schema" = some (PyVal.list (PyVal.dict t₀kvs :: ts)) →
      pyGet t₀kvs "name" = some n →
      env.createTarget = .ok tid →
      ∃ final, addLambdaToGatewayScript env =
          (0, some final, [ScriptCall.createGatewayTarget]) ∧
        pyGet final "target_id" = some (PyVal.str tid) ∧
        pyGet final "target_name" = some (PyVal.str "OrderLookup") ∧
        pyGet final "lambda_arn" = some larn ∧
        ∀ k : String, k ≠ "target_id" → k ≠ "target_name" → k ≠ "lambda_arn" →
          pyGet final k = pyGet gcfg k) ∧
    (∀ (env : GenAddLambdaScriptEnv) (gcfg : List (String × PyVal)),
      env.gatewayConfig = some gcfg →
      (genAddLambdaScript env).2.1 = some gcfg) := by
  constructor
  · intro env gcfg lcfg gid larn t₀kvs n ts tid hg hgid hl hlarn hts hn htid
    refine ⟨pySetItem (pySetItem (pySetItem gcfg "target_id" (.str tid))
      "target_name" (.str "OrderLookup")) "lambda_arn" larn, ?_, ?_, ?_, ?_, ?_⟩
    · simp [addLambdaToGatewayScript, hg, hgid, hl, hlarn, hts, hn, htid]
    · rw [pyGet_setItem_other _ _ _ _ (by decide),
          pyGet_setItem_other _ _ _ _ (by decide), pyGet_setItem_same]
    · rw [pyGet_setItem_other _ _ _ _ (by decide), pyGet_setItem_same]
    · rw [pyGet_setItem_same]
    · intro k h₁ h₂ h₃
      rw [pyGet_setItem_other _ _ _ _ h₃, pyGet_setItem_other _ _ _ _ h₂,
          pyGet_setItem_other _ _ _ _ h₁]
  · intro env gcfg hg
    unfold genAddLambdaScript
    rw [hg]
    cases hgid : pyGet gcfg "gateway_id" with
    | none => simp [hgid]
    | some v =>
        cases htid : env.createTarget with
        | error e => simp [hgid, htid]
        | ok tid => simp [hgid, htid]

/-- The concrete environment of the C7 witness for the standalone script:
both configs present with the keys 11_create_gateway.py and
10_create_lambda.py persist, and a successful target creation. -/
def c7ScriptEnv : AddLambdaScriptEnv :=
  { gatewayConfig := some [("id", .str "gw-1"), ("gateway_id", .str "gw-1"),
      ("gateway_url", .str "https://u"), ("gateway_arn", .str "arn:aws:gw-1")]
    lambdaConfig := some [("function_arn", .str "arn:aws:lambda:f"),
      ("tool_schema", .list [.dict [("name", .str "lookup_order")]]),
      ("sample_orders", .list [])]
    createTarget := .ok "TGT9" }

/-- Witness for the amended C7, at concrete environments: the standalone
script sets `target_id` while keeping `gateway_url`, and the generated
script leaves the config exactly as loaded. -/
theorem add_lambda_target_config_effects_witness :
    pyGet ((addLambdaToGatewayScript c7ScriptEnv).2.1.getD []) "target_id" =
      some (PyVal.str "TGT9") ∧
    pyGet ((addLambdaToGatewayScript c7ScriptEnv).2.1.getD []) "gateway_url" =
      some (PyVal.str "https://u") ∧
    (genAddLambdaScript c7Env).2.1 =
      some [("gateway_id", .str "gw-1"), ("gateway_url", .str "https://gw.example"),
            ("gateway_arn", .str "arn:aws:gw-1")] := by
  obtain ⟨final, hrun, hid, -, -, hframe⟩ :=
    add_lambda_target_config_effects.1 c7ScriptEnv
      [("id", .str "gw-1"), ("gateway_id", .str "gw-1"),
       ("gateway_url", .str "https://u"), ("gateway_arn", .str "arn:aws:gw-1")]
      [("function_arn", .str "arn:aws:lambda:f"),
       ("tool_schema", .list [.dict [("name", .str "lookup_order")]]),
       ("sample_orders", .list [])]
      (.str "gw-1") (.str "arn:aws:lambda:f") [("name", .str "lookup_order")]
      (.str "lookup_order") [] "TGT9" rfl rfl rfl rfl rfl rfl rfl
  refine ⟨?_, ?_, ?_⟩
  · rw [hrun]; exact hid
  · rw [hrun]
    exact (hframe "gateway_url" (by decide) (by decide) (by decide)).trans rfl
  · exact add_lambda_target_config_effects.2 c7Env _ rfl

/-! ### C5: the two-phase order of the generated gateway-delete script -/

/-- The verification step confirmed that no targets remain: either the
first check returned none, or the recheck after the wait did. -/
def verificationSucceeded (env : GatewayDeleteEnv) : Prop :=
  env.list2 = .ok [] ∨
    ∃ rem, env.list2 = .ok rem ∧ rem ≠ [] ∧ env.list3 = .ok []

/-- The verification step ran to its end before step 2: it either
succeeded, or a verification list call failed (which the script logs and
tolerates, proceeding to delete the gateway). -/
def verificationConcluded (env : GatewayDeleteEnv) : Prop :=
  verificationSucceeded env ∨ (∃ e, env.list2 = .error e) ∨
    ∃ rem e, env.list2 = .ok rem ∧ rem ≠ [] ∧ env.list3 = .error e

/-- Every call the step-1 loop issues is a target deletion. -/
theorem delTargetsLoop_calls (del : String → Except String Unit) :
    ∀ ts, ∀ e ∈ (delTargetsLoop del ts).2, ∃ tid, e = ScriptCall.deleteTarget tid := by
  intro ts
  induction ts with
  | nil => simp [delTargetsLoop]
  | cons t ts ih =>
      intro e he
      cases hd : del t.targetId with
      | ok u =>
          simp only [delTargetsLoop, hd, List.mem_cons] at he
          rcases he with he | he
          · exact ⟨t.targetId, he⟩
          · exact ih e he
      | error msg =>
          cases hnf : gdNotFound msg with
          | true =>
              simp only [delTargetsLoop, hd, hnf, if_true, List.mem_cons] at he
              rcases he with he | he
              · exact ⟨t.targetId, he⟩
              · exact ih e he
          | false =>
              simp only [delTargetsLoop, hd, hnf, Bool.false_eq_true, if_false,
                List.mem_cons, List.not_mem_nil, or_false] at he
              exact ⟨t.targetId, he⟩

/-- When every listed target deletes cleanly, the loop re-raises nothing
and issues exactly one deletion per listed target, in list order. -/
theorem delTargetsLoop_all_ok (del : String → Except String Unit) :
    ∀ ts, (∀ t ∈ ts, del t.targetId = .ok ()) →
      delTargetsLoop del ts =
        (Option.none, ts.map fun t => ScriptCall.deleteTarget t.targetId) := by
  intro ts
  induction ts with
  | nil => intro _; rfl
  | cons t ts ih =>
      intro h
      have ht : del t.targetId = .ok () := h t (by simp)
      have hrest := ih fun u hu => h u (by simp [hu])
      simp [delTargetsLoop, ht, hrest]

/-- Step 2 always consists of exactly the delete-gateway call. -/
theorem gatewayDeleteStep2_calls (env : GatewayDeleteEnv) :
    (gatewayDeleteStep2 env).2 = [ScriptCall.deleteGateway] := by
  unfold gatewayDeleteStep2
  cases env.delGateway with
  | ok u => rfl
  | error e => by_cases h : lowerNotFound e = true <;> simp [h]

/-- Shape of the verification-and-step-2 tail: either it ends in the one
delete-gateway call after a concluded verification (at most one sleep
before it), or the recheck still reported targets and the tail is the
exit-1 trace with no delete-gateway. -/
theorem verifyAndStep2_shape (env : GatewayDeleteEnv) :
    (∃ vpre, (gatewayDeleteVerifyAndStep2 env).2 =
        vpre ++ [ScriptCall.deleteGateway] ∧
      ScriptCall.deleteGateway ∉ vpre ∧
      vpre.count ScriptCall.sleep5 ≤ 1 ∧ verificationConcluded env) ∨
    ((gatewayDeleteVerifyAndStep2 env).2 =
        [.listTargets, .sleep5, .listTargets] ∧ ¬ verificationSucceeded env) := by
  have hstep2 := gatewayDeleteStep2_calls env
  unfold gatewayDeleteVerifyAndStep2
  cases h2 : env.list2 with
  | error e =>
      left
      refine ⟨[ScriptCall.listTargets], by simp [hstep2], by simp, by simp, ?_⟩
      exact Or.inr (Or.inl ⟨e, h2⟩)
  | ok rem =>
      cases hrem : rem.isEmpty with
      | true =>
          left
          refine ⟨[ScriptCall.listTargets], by simp [hrem, hstep2], by simp,
            by simp, ?_⟩
          exact Or.inl (Or.inl (by rw [h2, List.isEmpty_iff.mp hrem]))
      | false =>
          have hne : rem ≠ [] := by
            intro hn
            rw [hn] at hrem
            cases hrem
          cases h3 : env.list3 with
          | error e =>
              left
              refine ⟨[ScriptCall.listTargets, ScriptCall.sleep5],
                by simp [hrem, h3, hstep2], by simp, by simp, ?_⟩
              exact Or.inr (Or.inr ⟨rem, e, h2, hne, h3⟩)
          | ok rem2 =>
              cases hrem2 : rem2.isEmpty with
              | true =>
                  left
                  refine ⟨[ScriptCall.listTargets, ScriptCall.sleep5,
                      ScriptCall.listTargets],
                    by simp [hrem, h3, hrem2, hstep2], by simp, by simp, ?_⟩
                  exact Or.inl (Or.inr ⟨rem, h2, hne,
                    by rw [h3, List.isEmpty_iff.mp hrem2]⟩)
              | false =>
                  right
                  refine ⟨by simp [hrem, h3, hrem2], ?_⟩
                  rintro (hs | ⟨rem', hrem', -, h3'⟩)
                  · rw [h2] at hs
                    cases hs
                    cases hrem
                  · rw [h2] at hrem'
                    cases hrem'
                    rw [h3] at h3'
                    cases h3'
                    cases hrem2

/-- Master shape of a gateway-delete run: either the trace ends in the one
delete-gateway call — so every target deletion precedes it — with at most
one sleep and a concluded verification, or the trace contains no
delete-gateway call at all (again at most one sleep). -/
theorem gatewayDeleteScript_shape (env : GatewayDeleteEnv) :
    (∃ pre, (gatewayDeleteScript env).2 = pre ++ [ScriptCall.deleteGateway] ∧
      ScriptCall.deleteGateway ∉ pre ∧
      pre.count ScriptCall.sleep5 ≤ 1 ∧ verificationConcluded env) ∨
    (ScriptCall.deleteGateway ∉ (gatewayDeleteScript env).2 ∧
      (gatewayDeleteScript env).2.count ScriptCall.sleep5 ≤ 1) := by
  unfold gatewayDeleteScript
  cases hce : env.configExists with
  | false => right; simp
  | true =>
      cases hcl : env.configLoad with
      | error e => right; simp
      | ok cfg =>
          cases hgid : pyGet cfg "gateway_id" with
          | none => right; simp [hgid]
          | some gid =>
              have hloopcalls := delTargetsLoop_calls env.delTarget
              have hshape := verifyAndStep2_shape env
              cases h1 : env.list1 with
              | error e =>
                  cases hnf : gdNotFound e with
                  | false => right; simp [hgid, h1, hnf]
                  | true =>
                      simp only [hgid, h1, hnf, if_true]
                      rcases hshape with ⟨vpre, hv, hvdg, hvc, hconc⟩ | ⟨hv, -⟩
                      · left
                        refine ⟨ScriptCall.listTargets :: vpre, ?_, ?_, ?_, hconc⟩
                        · simp [hv]
                        · simp [hvdg]
                        · simpa [List.count_cons] using hvc
                      · right
                        constructor
                        · simp [hv]
                        · simp [hv, List.count_cons]
              | ok targets =>
                  cases hloop : delTargetsLoop env.delTarget targets with
                  | mk o evs =>
                      have hevs : ∀ e ∈ evs, ∃ tid, e = ScriptCall.deleteTarget tid := by
                        intro e he
                        exact hloopcalls targets e (by rw [hloop]; exact he)
                      have hevdg : ScriptCall.deleteGateway ∉ evs := by
                        intro hmem
                        obtain ⟨tid, htid⟩ := hevs _ hmem
                        cases htid
                      have hevsl : ScriptCall.sleep5 ∉ evs := by
                        intro hmem
                        obtain ⟨tid, htid⟩ := hevs _ hmem
                        cases htid
                      cases o with
                      | some msg =>
                          right
                          simp [hgid, h1, hloop, List.count_cons,
                            List.count_eq_zero.mpr hevsl, hevdg]
                      | none =>
                          simp only [hgid, h1, hloop]
                          rcases hshape with ⟨vpre, hv, hvdg, hvc, hconc⟩ | ⟨hv, -⟩
                          · left
                            refine ⟨ScriptCall.listTargets :: (evs ++ vpre), ?_, ?_, ?_, hconc⟩
                            · simp [hv]
                            · simp [hevdg, hvdg]
                            · simp only [List.count_cons, List.count_append]
                              have h0 : evs.count ScriptCall.sleep5 = 0 :=
                                List.count_eq_zero.mpr hevsl
                              simp [h0, hvc]
                          · right
                            constructor
                            · simp [hv, hevdg]
                            · have h0 : evs.count ScriptCall.sleep5 = 0 :=
                                List.count_eq_zero.mpr hevsl
                              simp [hv, List.count_cons, List.count_append, h0]

/-- C5 (amended): the generated gateway-delete script deletes every listed
target before the delete-gateway call (which, when issued, is the final
call and issued once), performs at most one fixed wait with a single
recheck, and when the recheck still reports remaining targets exits 1
without issuing delete-gateway; the delete-gateway call is issued only
after the verification step has concluded — confirming zero targets, or
its list call itself failing, which the script logs and tolerates. -/
theorem gateway_delete_two_phase :
    (∀ env : GatewayDeleteEnv,
      ScriptCall.deleteGateway ∈ (gatewayDeleteScript env).2 →
      ∃ pre, (gatewayDeleteScript env).2 = pre ++ [ScriptCall.deleteGateway] ∧
        ScriptCall.deleteGateway ∉ pre) ∧
    (∀ env : GatewayDeleteEnv,
      (gatewayDeleteScript env).2.count ScriptCall.sleep5 ≤ 1) ∧
    (∀ env : GatewayDeleteEnv,
      ScriptCall.deleteGateway ∈ (gatewayDeleteScript env).2 →
      verificationConcluded env) ∧
    (∀ (env : GatewayDeleteEnv) (cfg : List (String × PyVal)) (gid : PyVal)
      (targets rem rem2 : List GatewayTarget),
      env.configExists = true → env.configLoad = .ok cfg →
      pyGet cfg "gateway_id" = some gid →
      env.list1 = .ok targets →
      (∀ t ∈ targets, env.delTarget t.targetId = .ok ()) →
      env.list2 = .ok rem → rem ≠ [] →
      env.list3 = .ok rem2 → rem2 ≠ [] →
      gatewayDeleteScript env =
        (1, ScriptCall.listTargets ::
          (targets.map (fun t => ScriptCall.deleteTarget t.targetId) ++
            [ScriptCall.listTargets, ScriptCall.sleep5,
             ScriptCall.listTargets])) ∧
      ScriptCall.deleteGateway ∉ (gatewayDeleteScript env).2) := by
  refine ⟨?_, ?_, ?_, ?_⟩
  · intro env hmem
    rcases gatewayDeleteScript_shape env with ⟨pre, hp, hdg, -, -⟩ | ⟨hno, -⟩
    · exact ⟨pre, hp, hdg⟩
    · exact absurd hmem hno
  · intro env
    rcases gatewayDeleteScript_shape env with ⟨pre, hp, -, hc, -⟩ | ⟨-, hc⟩
    · rw [hp]
      simpa [List.count_append] using hc
    · exact hc
  · intro env hmem
    rcases gatewayDeleteScript_shape env with ⟨pre, hp, -, -, hconc⟩ | ⟨hno, -⟩
    · exact hconc
    · exact absurd hmem hno
  · intro env cfg gid targets rem rem2 hce hcl hgid h1 hdel h2 hne h3 hne2
    have hloop := delTargetsLoop_all_ok env.delTarget targets hdel
    have hrem : rem.isEmpty = false := by
      cases rem with
      | nil => exact absurd rfl hne
      | cons a l => rfl
    have hrem2 : rem2.isEmpty = false := by
      cases rem2 with
      | nil => exact absurd rfl hne2
      | cons a l => rfl
    have hrun : gatewayDeleteScript env =
        (1, ScriptCall.listTargets ::
          (targets.map (fun t => ScriptCall.deleteTarget t.targetId) ++
            [ScriptCall.listTargets, ScriptCall.sleep5,
             ScriptCall.listTargets])) := by
      unfold gatewayDeleteScript gatewayDeleteVerifyAndStep2
      rw [hce, hcl]
      simp [hgid, h1, hloop, h2, h3, hrem, hrem2]
    refine ⟨hrun, ?_⟩
    rw [hrun]
    simp

/-! ### C3: what the generated code embeds -/

/-- A list is an infix of itself followed by anything. -/
theorem isInfix_self_append {α : Type} (l r : List α) : l <:+: l ++ r :=
  ⟨[], r, by simp⟩

/-- Infixes persist under prepending. -/
theorem isInfix_append_left {α : Type} {l₁ l₂ : List α} (l₃ : List α)
    (h : l₁ <:+: l₂) : l₁ <:+: l₃ ++ l₂ := by
  obtain ⟨s, t, rfl⟩ := h
  exact ⟨l₃ ++ s, t, by simp⟩

/-- Infixes persist under appending. -/
theorem isInfix_append_of_left {α : Type} {l₁ l₂ : List α} (l₃ : List α)
    (h : l₁ <:+: l₂) : l₁ <:+: l₂ ++ l₃ := by
  obtain ⟨s, t, rfl⟩ := h
  exact ⟨s, t ++ l₃, by simp⟩

set_option maxRecDepth 16384 in
set_option maxHeartbeats 2000000 in
/-- C3 (amended): the generated code embeds the parameters the handler
interpolates into its template: for every input, the gateway-create
script embeds the supplied name and writes a gateway_config.json
referencing gateway_id, and the memory-create script embeds the supplied
name, region and description.  (Inputs a handler never interpolates — see
the counterexample — need not appear.) -/
theorem generated_code_embeds_interpolated_inputs :
    (∀ region name protocol_type authorizer_type description : String,
      name.data <:+:
        (gatewayCreateCode region name protocol_type authorizer_type
          description).data ∧
      ("gateway_config.json" : String).data <:+:
        (gatewayCreateCode region name protocol_type authorizer_type
          description).data ∧
      ("gateway_id" : String).data <:+:
        (gatewayCreateCode region name protocol_type authorizer_type
          description).data) ∧
    (∀ (region name description : String) (ts : List PyVal),
      name.data <:+: (memoryCreateCode region name description ts).data ∧
      region.data <:+: (memoryCreateCode region name description ts).data ∧
      description.data <:+: (memoryCreateCode region name description ts).data) := by
  constructor
  · intro region name protocol_type authorizer_type description
    refine ⟨?_, ?_, ?_⟩ <;>
      simp only [gatewayCreateCode, String.data_append, List.append_assoc] <;>
      repeat
        first
        | exact isInfix_self_append _ _
        | (apply isInfix_append_of_left; decide)
        | apply isInfix_append_left
  · intro region name description ts
    refine ⟨?_, ?_, ?_⟩ <;>
      simp only [memoryCreateCode, String.data_append, List.append_assoc] <;>
      repeat
        first
        | exact isInfix_self_append _ _
        | apply isInfix_append_left

/-- The concrete input of the C3 counterexample: a `memory_id` value (the
marker `¤`, a character appearing nowhere in the template) that the
memory-retrieve handler receives but never interpolates. -/
def c3Args : ArgDict :=
  [("memory_id", .str "¤"), ("namespace", .str "app/user_001/preferences"),
   ("query", .str "user preferences"), ("top_k", .int 3),
   ("relevance_score", .int 0), ("region", .str "us-west-2")]

set_option maxRecDepth 16384 in
set_option maxHeartbeats 2000000 in
/-- C3 counterexample: the memory-retrieve handler succeeds on `c3Args`
yet its generated code does not contain the literal `memory_id` input
value — the code loads the id from memory_config.json instead — so "the
code string returned by a handler contains the literal input values the
handler was given" is false at this input. -/
theorem memory_retrieve_code_omits_memory_id :
    resultKeysOf (handle_memory_retrieve c3Args) =
      ["code", "filename", "instructions"] ∧
    ¬ (("¤" : String).data <:+:
        (resultCodeOf (handle_memory_retrieve c3Args)).data) := by
  refine ⟨rfl, ?_⟩
  intro h
  have hmem : '¤' ∈ (resultCodeOf (handle_memory_retrieve c3Args)).data :=
    h.subset (by decide)
  exact absurd hmem (by decide)

/-- C5 counterexample environment: one target which deletes cleanly, a
verification list call that fails with a throttling error (no
"not found" in it), and a gateway deletion that succeeds. -/
def c5Env : GatewayDeleteEnv :=
  { configExists := true
    configLoad := .ok [("gateway_id", .str "gw-1")]
    list1 := .ok [{ targetId := "T1", displayName := some "OrderLookup" }]
    delTarget := fun _ => .ok ()
    list2 := .error "ThrottlingException: Rate exceeded"
    list3 := .ok []
    delGateway := .ok () }

/-- C5 counterexample: with the verification list call failing, the script
still issues the delete-gateway call (and exits 0) although the
verification never confirmed that no targets remain — the claim's "only
after successful verification issues the delete-gateway call" is false on
this run (gateway_handlers.py lines 403-405 swallow the error). -/
theorem gateway_delete_unverified_deletion :
    gatewayDeleteScript c5Env =
      (0, [ScriptCall.listTargets, ScriptCall.deleteTarget "T1",
           ScriptCall.listTargets, ScriptCall.deleteGateway]) ∧
    ScriptCall.deleteGateway ∈ (gatewayDeleteScript c5Env).2 ∧
    ¬ verificationSucceeded c5Env := by
  refine ⟨rfl, by decide, ?_⟩
  rintro (h | ⟨rem, hrem, -, -⟩)
  · simp [c5Env] at h
  · simp [c5Env] at hrem

/-- The concrete environment of the C5 witness: the recheck still reports
a remaining target. -/
def c5WitnessEnv : GatewayDeleteEnv :=
  { configExists := true
    configLoad := .ok [("gateway_id", .str "gw-1")]
    list1 := .ok [{ targetId := "T1", displayName := some "OrderLookup" }]
    delTarget := fun _ => .ok ()
    list2 := .ok [{ targetId := "T1", displayName := some "OrderLookup" }]
    list3 := .ok [{ targetId := "T1", displayName := some "OrderLookup" }]
    delGateway := .ok () }

/-- Witness for the amended C5: on the concrete environment whose recheck
still reports a target, the run is delete-target first, one sleep, one
recheck, exit 1, and no delete-gateway call. -/
theorem gateway_delete_two_phase_witness :
    gatewayDeleteScript c5WitnessEnv =
      (1, [ScriptCall.listTargets, ScriptCall.deleteTarget "T1",
           ScriptCall.listTargets, ScriptCall.sleep5,
           ScriptCall.listTargets]) ∧
    ScriptCall.deleteGateway ∉ (gatewayDeleteScript c5WitnessEnv).2 ∧
    (gatewayDeleteScript c5WitnessEnv).2.count ScriptCall.sleep5 ≤ 1 := by
  obtain ⟨hrun, hnodg⟩ := gateway_delete_two_phase.2.2.2 c5WitnessEnv
    [("gateway_id", .str "gw-1")] (.str "gw-1")
    [{ targetId := "T1", displayName := some "OrderLookup" }]
    [{ targetId := "T1", displayName := some "OrderLookup" }]
    [{ targetId := "T1", displayName := some "OrderLookup" }]
    rfl rfl rfl rfl (fun t _ => rfl) rfl (by decide) rfl (by decide)
  exact ⟨hrun, hnodg, gateway_delete_two_phase.2.1 c5WitnessEnv⟩
